import Mathlib

set_option maxRecDepth 2000

/-!
Verification of the tiny-world simulation core, embedded from
`src/world/create.ts` and `src/world/update.ts`.

Numbers: JavaScript numbers are modelled as exact rationals (`ℚ`).  The one
place where IEEE-754 double rounding is load-bearing is the seeded RNG state
update `seed = (seed * 1103515245 + 12345) & 0x7fffffff`: the product exceeds
2^53, so the multiplication and addition round.  Rounding a nonnegative
integer to the nearest double is exact integer arithmetic (round to 53
significant bits, ties to even), which `roundDouble` implements; `& 0x7fffffff`
on a nonnegative integral double is reduction mod 2^31 (ToInt32 followed by
masking the low 31 bits).

`Math.random()` draws, `Math.sin`/`cos`/`sqrt` evaluations and the ids
produced by `randomId` (`Math.random().toString(36).slice(2, 9)`) are supplied
by an environment `Env`; `Env.Valid` records the analytic facts the proofs
need (`Math.random() ∈ [0,1)`, `sin`/`cos ∈ [-1,1]`).

`update.ts` contains two update-loop variants: variant A (particles, plant
reproduction/removal, advancing day phase) and variant B (day phase frozen at
noon, reproduction disabled, plant size floored).  Both are embedded; code
that is textually identical in the two variants (the boundary bounce, the
butterfly drift, the plant growth step) is shared.
-/

/-- Bit length of a natural number, fuel-based so that it reduces by `rfl`.
`bitlenAux fuel n` is the number of binary digits of `n` (0 for 0) as long as
`fuel` bounds the bit length. -/
def bitlenAux : ℕ → ℕ → ℕ
  | 0, _ => 0
  | fuel + 1, n => if n = 0 then 0 else bitlenAux fuel (n / 2) + 1

/-- Bit length with enough fuel for every number in this development. -/
def bitlen (n : ℕ) : ℕ := bitlenAux 4200 n

/-- Round `n` to an integral multiple of the granularity `p = 2^k`,
round-to-nearest with ties to even; `h = 2^(k-1)` is half the granularity. -/
def roundAt (n p h : ℕ) : ℕ :=
  let q := n / p
  let r := n % p
  if h < r ∨ (r = h ∧ q % 2 = 1) then (q + 1) * p else q * p

/-- IEEE-754 double rounding of a nonnegative integer: round to 53
significant bits, ties to even.  Numbers below 2^53 are exact; the explicit
threshold chain (through 2^62, ample for a product of a 31-bit seed and the
LCG multiplier) keeps kernel evaluation cheap; the final case handles all
larger inputs. -/
def roundDouble (n : ℕ) : ℕ :=
  if n < 9007199254740992 then n
  else if n < 18014398509481984 then roundAt n 2 1
  else if n < 36028797018963968 then roundAt n 4 2
  else if n < 72057594037927936 then roundAt n 8 4
  else if n < 144115188075855872 then roundAt n 16 8
  else if n < 288230376151711744 then roundAt n 32 16
  else if n < 576460752303423488 then roundAt n 64 32
  else if n < 1152921504606846976 then roundAt n 128 64
  else if n < 2305843009213693952 then roundAt n 256 128
  else if n < 4611686018427387904 then roundAt n 512 256
  else roundAt n (2 ^ (bitlen n - 53)) (2 ^ (bitlen n - 54))

/-- The seeded RNG state update from `create.ts`:
`seed = (seed * 1103515245 + 12345) & 0x7fffffff`, with the JavaScript double
rounding of the oversized product and sum made explicit. -/
def nextSeed (s : ℕ) : ℕ :=
  roundDouble (roundDouble (s * 1103515245) + 12345) % 2147483648

/-- `lcgIter n s`: the seed after `n` calls of `seededRandom` starting from
seed `s`. -/
def lcgIter : ℕ → ℕ → ℕ
  | 0, s => s
  | n + 1, s => lcgIter n (nextSeed s)

/-- One-pass checker: `lcgChunk n s = (b, t)` where `t` is the seed after `n`
steps and `b` records that none of the first `n` seeds (the start seed
included) equals `0x7fffffff = 2147483647`. -/
def lcgChunk : ℕ → ℕ → Bool × ℕ
  | 0, s => (true, s)
  | n + 1, s =>
    let t := lcgChunk n (nextSeed s)
    (decide (s ≠ 2147483647) && t.1, t.2)

/-- External inputs of the simulation: the `Math.random()` stream (indexed by
consumption order), the ids minted by `randomId`, and the library functions
`Math.sin`, `Math.cos`, `Math.sqrt`. -/
structure Env where
  rand : ℕ → ℚ
  ids : ℕ → String
  sinv : ℚ → ℚ
  cosv : ℚ → ℚ
  sqrtv : ℚ → ℚ

/-- Analytic facts about a real JavaScript environment: `Math.random()` lies
in `[0, 1)` and sine/cosine lie in `[-1, 1]`. -/
def Env.Valid (e : Env) : Prop :=
  (∀ n, 0 ≤ e.rand n ∧ e.rand n < 1) ∧
  (∀ x, -1 ≤ e.sinv x ∧ e.sinv x ≤ 1) ∧
  (∀ x, -1 ≤ e.cosv x ∧ e.cosv x ≤ 1)

/-- Mutable module-level state threaded through the simulation: the
`Math.random()` consumption counter `k` and the seeded-RNG `seed` of
`create.ts`. -/
structure SimSt where
  k : ℕ
  seed : ℕ
deriving DecidableEq

/-- One `Math.random()` call. -/
def mathRandom (e : Env) (st : SimSt) : ℚ × SimSt :=
  (e.rand st.k, ⟨st.k + 1, st.seed⟩)

/-- One `randomId()` call (`Math.random().toString(36).slice(2, 9)`): consumes
one `Math.random()` draw and yields the corresponding id string. -/
def randomId (e : Env) (st : SimSt) : String × SimSt :=
  (e.ids st.k, ⟨st.k + 1, st.seed⟩)

/-- One `seededRandom()` call of `create.ts`: advances the seed and returns
`seed / 0x7fffffff`. -/
def seededRandom (st : SimSt) : ℚ × SimSt :=
  ((nextSeed st.seed : ℚ) / 2147483647, ⟨st.k, nextSeed st.seed⟩)

/-- `resetSeed()` of `create.ts`: restores the fixed initial seed. -/
def resetSeed (st : SimSt) : SimSt := ⟨st.k, 12345⟩

/-- `randomInRange` of `create.ts` (seeded):
`seededRandom() * (max - min) + min`. -/
def randomInRange (lo hi : ℚ) (st : SimSt) : ℚ × SimSt :=
  let r := seededRandom st
  (r.1 * (hi - lo) + lo, r.2)

/-- `randomInRange` of `update.ts` (based on `Math.random`):
`Math.random() * (max - min) + min`. -/
def randomInRangeU (e : Env) (lo hi : ℚ) (st : SimSt) : ℚ × SimSt :=
  let r := mathRandom e st
  (r.1 * (hi - lo) + lo, r.2)

/-- Creature type tags of `types.ts`. -/
inductive CreatureType
  | bug | snail | butterfly | caterpillar | ant | dragonfly | bee
deriving DecidableEq

/-- Plant type tags of `types.ts`. -/
inductive PlantType
  | flower | grass | mushroom | blade | daisy | tulip | wildflower | poppy | moss
deriving DecidableEq

/-- Creature behavioral states of `types.ts`. -/
inductive CreatureState
  | wander | rest | eat
deriving DecidableEq

/-- Weather values of `types.ts`. -/
inductive Weather
  | clear | rain | windy
deriving DecidableEq

/-- 2D vector of `types.ts`. -/
structure Vector2 where
  x : ℚ
  y : ℚ
deriving DecidableEq

/-- Creature record of `types.ts`. -/
structure Creature where
  id : String
  pos : Vector2
  vel : Vector2
  size : ℚ
  color : String
  type : CreatureType
  state : CreatureState
  stateTimer : ℚ
  energy : ℚ
deriving DecidableEq

/-- Plant record of `types.ts`. -/
structure Plant where
  id : String
  pos : Vector2
  size : ℚ
  maxSize : ℚ
  growthRate : ℚ
  color : String
  type : PlantType
  age : ℕ
deriving DecidableEq

/-- Particle record of `types.ts` (variant A). -/
structure Particle where
  pos : Vector2
  vel : Vector2
  life : ℚ
  maxLife : ℚ
  size : ℚ
  color : String
deriving DecidableEq

/-- World record of `types.ts`.  Variant B of the update loop has no particle
subsystem and simply never touches `particles`. -/
structure World where
  width : ℚ
  height : ℚ
  creatures : List Creature
  plants : List Plant
  particles : List Particle
  time : ℕ
  weather : Weather
  dayPhase : ℚ
deriving DecidableEq

/-- `creatureColors` table of `create.ts`. -/
def creatureColors : CreatureType → List String
  | .bug => ["#5d4e37", "#8b7355", "#6b8e23"]
  | .snail => ["#deb887", "#d2b48c", "#bc8f8f"]
  | .butterfly => ["#ffb6c1", "#87ceeb", "#dda0dd", "#f0e68c"]
  | .caterpillar => ["#7cb342", "#8bc34a", "#9ccc65", "#c5e1a5", "#ffeb3b"]
  | .ant => ["#1a1a1a", "#2d1f1f", "#3d2b2b", "#4a3c3c"]
  | .dragonfly => ["#1e90ff", "#00ced1", "#32cd32", "#dc143c", "#4169e1", "#2f4f4f"]
  | .bee => ["#f4a020", "#e8a000", "#d4940a", "#c98a00"]

/-- `plantColors` table of `create.ts`. -/
def plantColors : PlantType → List String
  | .flower => ["#ff6b6b", "#ffd93d", "#6bcb77", "#4d96ff", "#ff8fb1"]
  | .grass => ["#228b22", "#32cd32", "#90ee90", "#3cb371"]
  | .mushroom => ["#f5deb3", "#ffe4c4", "#ffdab9", "#e6c89c"]
  | .blade => ["#1e7a1e", "#2d8a2d", "#3d9a3d", "#228b22", "#2e8b2e"]
  | .daisy => ["#ffffff", "#fff8dc", "#fffaf0"]
  | .tulip => ["#e91e63", "#9c27b0", "#ff5722", "#ffeb3b", "#f44336"]
  | .wildflower => ["#ba68c8", "#7986cb", "#4fc3f7", "#81c784", "#ffb74d"]
  | .poppy => ["#e63946", "#ff6b35", "#f77f00", "#ffba08"]
  | .moss => ["#5a7247", "#6b8e4e", "#4a6741", "#3d5a35", "#7da668", "#8fbc6f"]

/-- `sizes` table inside `createCreature`. -/
def creatureSizes : CreatureType → ℚ
  | .bug => 4
  | .snail => 6
  | .butterfly => 5
  | .caterpillar => 5
  | .ant => 2.1
  | .dragonfly => 6
  | .bee => 3

/-- `maxSizes` table inside `createPlant`. -/
def plantMaxSizes : PlantType → ℚ
  | .flower => 12
  | .grass => 8
  | .mushroom => 10
  | .blade => 6
  | .daisy => 10
  | .tulip => 14
  | .wildflower => 8
  | .poppy => 8
  | .moss => 8

/-- Index into a palette: `colors[Math.floor(seededRandom() * colors.length)]`
(the index is always in range because the draw lies in `[0, 1]`; the default
is never used). -/
def pickColor (colors : List String) (r : ℚ) : String :=
  colors.getD (⌊r * (colors.length : ℚ)⌋).toNat ""

/-- `createCreature` of `create.ts`.  Draws happen in source evaluation order:
id, pos.x, pos.y, size jitter, color index, stateTimer. -/
def createCreature (e : Env) (ty : CreatureType) (worldWidth worldHeight : ℚ)
    (st : SimSt) : Creature × SimSt :=
  let colors := creatureColors ty
  let i := randomId e st
  let px := randomInRange 20 (worldWidth - 20) i.2
  let py := randomInRange 20 (worldHeight - 20) px.2
  let sj := randomInRange (-1) 1 py.2
  let ci := seededRandom sj.2
  let t := randomInRange 60 180 ci.2
  ({ id := i.1
     pos := ⟨px.1, py.1⟩
     vel := ⟨0, 0⟩
     size := creatureSizes ty + sj.1
     color := pickColor colors ci.1
     type := ty
     state := .wander
     stateTimer := t.1
     energy := 100 }, t.2)

/-- The position of a new plant in `createPlant`: the explicit argument when
one is passed (`pos || {...}`), otherwise sampled inside a 30-unit margin. -/
def createPlantPos (worldWidth worldHeight : ℚ) (pos : Option Vector2)
    (st : SimSt) : Vector2 × SimSt :=
  match pos with
  | some v => (v, st)
  | none =>
    let x := randomInRange 30 (worldWidth - 30) st
    let y := randomInRange 30 (worldHeight - 30) x.2
    (⟨x.1, y.1⟩, y.2)

/-- The initial size of a new plant in `createPlant`: a small random seed
value when `startSmall`, otherwise 80–100% of `maxSize`. -/
def createPlantSize (maxSize : ℚ) (startSmall : Bool) (st : SimSt) :
    ℚ × SimSt :=
  if startSmall then randomInRange 1 3 st
  else
    let f := randomInRange 0.8 1.0 st
    (maxSize * f.1, f.2)

/-- `createPlant` of `create.ts`.  The `maxSize` jitter is drawn before the
record is built; inside the record the order is id, pos (only when no
explicit position is passed), size, growthRate, color. -/
def createPlant (e : Env) (ty : PlantType) (worldWidth worldHeight : ℚ)
    (pos : Option Vector2) (startSmall : Bool) (st : SimSt) : Plant × SimSt :=
  let colors := plantColors ty
  let ms := randomInRange (-2) 4 st
  let maxSize := plantMaxSizes ty + ms.1
  let i := randomId e ms.2
  let pp := createPlantPos worldWidth worldHeight pos i.2
  let sz := createPlantSize maxSize startSmall pp.2
  let gr := randomInRange 0.002 0.008 sz.2
  let ci := seededRandom gr.2
  ({ id := i.1
     pos := pp.1
     size := sz.1
     maxSize := maxSize
     growthRate := gr.1
     color := pickColor colors ci.1
     type := ty
     age := 0 }, ci.2)

/-- Run a creation action `n` times, collecting results in creation order
(models a `for` loop pushing into an array). -/
def buildList {α : Type} (n : ℕ) (f : SimSt → α × SimSt) (st : SimSt) :
    List α × SimSt :=
  match n with
  | 0 => ([], st)
  | n + 1 =>
    let x := f st
    let rest := buildList n f x.2
    (x.1 :: rest.1, rest.2)

/-- Run a sequence of creation segments in order, concatenating the pushed
entities (models consecutive `for` loops pushing into one array). -/
def chainLists {α : Type} : List (SimSt → List α × SimSt) → SimSt → List α × SimSt
  | [], st => ([], st)
  | f :: fs, st =>
    let x := f st
    let rest := chainLists fs x.2
    (x.1 ++ rest.1, rest.2)

/-- Run a patch-building action `n` times and flatten the patches in order. -/
def flatSeg {α : Type} (n : ℕ) (f : SimSt → List α × SimSt) (st : SimSt) :
    List α × SimSt :=
  let x := buildList n f st
  (x.1.flatten, x.2)

/-- The double value of `Math.PI` as an exact rational. -/
def piQ : ℚ := 884279719003555 / 281474976710656

/-- `distance` of `update.ts`:
`Math.sqrt((a.x - b.x) ** 2 + (a.y - b.y) ** 2)`. -/
def distance (e : Env) (a b : Vector2) : ℚ :=
  e.sqrtv ((a.x - b.x) ^ 2 + (a.y - b.y) ^ 2)

/-- `normalize` of `update.ts` (both variants compute the same value). -/
def normalizeV (e : Env) (v : Vector2) : Vector2 :=
  let len := e.sqrtv (v.x ^ 2 + v.y ^ 2)
  if len = 0 then ⟨0, 0⟩ else ⟨v.x / len, v.y / len⟩

/-- `speeds` table of variant A's `updateCreature`; `speeds[type] ?? 0.3`
gives dragonflies and bees the default 0.3. -/
def speedsA : CreatureType → ℚ
  | .bug => 0.8
  | .snail => 0.2
  | .butterfly => 1.2
  | .caterpillar => 0.3
  | .ant => 1.0
  | .dragonfly => 0.3
  | .bee => 0.3

/-- `speeds` table of variant B's `updateCreature` (bug slowed to 0.4). -/
def speedsB : CreatureType → ℚ
  | .bug => 0.4
  | .snail => 0.2
  | .butterfly => 1.2
  | .caterpillar => 0.3
  | .ant => 1.0
  | .dragonfly => 0.3
  | .bee => 0.3

/-- Variant A's search predicate for a plant to steer toward:
`distance(creature.pos, p.pos) < 50 && p.size > 3`. -/
def eatSearchPredA (e : Env) (pos : Vector2) (p : Plant) : Bool :=
  decide (distance e pos p.pos < 50) && decide (p.size > 3)

/-- Variant B's `findNearbyPlant` predicate:
`p.size > minSize && distance(pos, p.pos) < maxDist`. -/
def nearbyPredB (e : Env) (pos : Vector2) (maxDist minSize : ℚ) (p : Plant) : Bool :=
  decide (p.size > minSize) && decide (distance e pos p.pos < maxDist)

/-- `findNearbyPlant` of variant B: first plant matching the predicate. -/
def findNearbyPlant (e : Env) (plants : List Plant) (pos : Vector2)
    (maxDist minSize : ℚ) : Option Plant :=
  plants.find? (nearbyPredB e pos maxDist minSize)

/-- The state-machine transition body of `updateCreature` (the
`stateTimer <= 0` branch), shared shape of both variants; `speed` is the
variant's speed for the creature's type and `search` the variant's
plant-search result.  Draw order matches the source: transition draw, dwell
draw, then (wander only) the heading draw. -/
def creatureTransition (e : Env) (speed : ℚ) (search : Option Plant)
    (c : Creature) (st : SimSt) : Creature × SimSt :=
  let r := mathRandom e st
  if r.1 < 0.6 then
    let t := randomInRangeU e 120 300 r.2
    let a := mathRandom e t.2
    let angle := a.1 * piQ * 2
    ({ c with
        state := .wander
        stateTimer := t.1
        vel := ⟨e.cosv angle * speed, e.sinv angle * speed⟩ }, a.2)
  else if r.1 < 0.85 then
    let t := randomInRangeU e 60 180 r.2
    ({ c with
        state := .rest
        stateTimer := t.1
        vel := ⟨0, 0⟩ }, t.2)
  else
    match search with
    | some p =>
      let t := randomInRangeU e 60 120 r.2
      let dir := normalizeV e ⟨p.pos.x - c.pos.x, p.pos.y - c.pos.y⟩
      ({ c with
          state := .eat
          stateTimer := t.1
          vel := ⟨dir.x * speed * 0.5, dir.y * speed * 0.5⟩ }, t.2)
    | none =>
      let t := randomInRangeU e 60 120 r.2
      ({ c with
          state := .wander
          stateTimer := t.1 }, t.2)

/-- Butterfly drift (identical in both variants): adds a small sinusoidal
term, parameterized by world time and the creature's own position, to the
velocity of butterflies. -/
def butterflyDrift (e : Env) (time : ℕ) (c : Creature) : Creature :=
  if c.type = .butterfly then
    { c with vel := ⟨c.vel.x + e.sinv ((time : ℚ) * 0.05 + c.pos.y * 0.01) * 0.02,
                     c.vel.y + e.cosv ((time : ℚ) * 0.03 + c.pos.x * 0.01) * 0.02⟩ }
  else c

/-- One axis of the boundary handling (identical in both variants): the
coordinate has already been advanced by the velocity; if it crossed the
20-unit inset margin on either side it is clamped to the margin and the
velocity component is negated.  The two `if`s run in sequence, as in the
source. -/
def bounceAxis (limit p v : ℚ) : ℚ × ℚ :=
  let a : ℚ × ℚ := if p < 20 then (20, -v) else (p, v)
  if a.1 > limit - 20 then (limit - 20, -a.2) else a

/-- Velocity integration followed by the four boundary `if`s (identical in
both variants). -/
def applyVelocityAndBounds (width height : ℚ) (c : Creature) : Creature :=
  let bx := bounceAxis width (c.pos.x + c.vel.x) c.vel.x
  let byy := bounceAxis height (c.pos.y + c.vel.y) c.vel.y
  { c with pos := ⟨bx.1, byy.1⟩, vel := ⟨bx.2, byy.2⟩ }

/-- Update the first list element satisfying `q` by `f`; the flag reports
whether a match was found.  Models `find` followed by an in-place mutation of
the found element. -/
def updateFirst {α : Type} (q : α → Bool) (f : α → α) : List α → List α × Bool
  | [] => ([], false)
  | x :: xs =>
    if q x then (f x :: xs, true)
    else
      let r := updateFirst q f xs
      (x :: r.1, r.2)

/-- The eating step (same in both variants up to the search order of the
predicate, which is passed in): while in `eat` state, re-search for a plant
within 15 units with size above 2; if found, shrink it by 0.01 and raise the
creature's energy by 0.1, clamped at 100. -/
def creatureEat (pred : Plant → Bool) (plants : List Plant) (c : Creature) :
    Creature × List Plant :=
  if c.state = .eat then
    let r := updateFirst pred (fun p => { p with size := p.size - 0.01 }) plants
    if r.2 then ({ c with energy := min 100 (c.energy + 0.1) }, r.1)
    else (c, plants)
  else (c, plants)

/-- `updateCreature` of variant A: decrement the dwell timer; on expiry run
the state machine (searching `world.plants` with variant A's predicate);
apply butterfly drift, velocity integration and boundary bounce; eat; then
drain energy by 0.005. -/
def updateCreatureA (e : Env) (width height : ℚ) (time : ℕ)
    (plants : List Plant) (c0 : Creature) (st : SimSt) :
    (Creature × List Plant) × SimSt :=
  let speed := speedsA c0.type
  let c1 := { c0 with stateTimer := c0.stateTimer - 1 }
  let s2 :=
    if c1.stateTimer ≤ 0 then
      creatureTransition e speed (plants.find? (eatSearchPredA e c1.pos)) c1 st
    else (c1, st)
  let c3 := butterflyDrift e time s2.1
  let c4 := applyVelocityAndBounds width height c3
  let r5 := creatureEat
    (fun p => decide (distance e c4.pos p.pos < 15) && decide (p.size > 2)) plants c4
  let c6 := { r5.1 with energy := r5.1.energy - 0.005 }
  ((c6, r5.2), s2.2)

/-- `updateCreature` of variant B: identical control flow with variant B's
speed table and `findNearbyPlant(world.plants, pos, 50, 3)` /
`findNearbyPlant(world.plants, pos, 15, 2)` searches. -/
def updateCreatureB (e : Env) (width height : ℚ) (time : ℕ)
    (plants : List Plant) (c0 : Creature) (st : SimSt) :
    (Creature × List Plant) × SimSt :=
  let speed := speedsB c0.type
  let c1 := { c0 with stateTimer := c0.stateTimer - 1 }
  let s2 :=
    if c1.stateTimer ≤ 0 then
      creatureTransition e speed (findNearbyPlant e plants c1.pos 50 3) c1 st
    else (c1, st)
  let c3 := butterflyDrift e time s2.1
  let c4 := applyVelocityAndBounds width height c3
  let r5 := creatureEat (nearbyPredB e c4.pos 15 2) plants c4
  let c6 := { r5.1 with energy := r5.1.energy - 0.005 }
  ((c6, r5.2), s2.2)

/-- `world.creatures.forEach(c => updateCreature(c, world))`: each creature is
updated in order; `world.plants` mutations (eating) made by earlier creatures
are seen by later ones, so the plant list is threaded through. -/
def creaturesStep (upd : List Plant → Creature → SimSt → (Creature × List Plant) × SimSt) :
    List Creature → List Plant → SimSt → (List Creature × List Plant) × SimSt
  | [], plants, st => (([], plants), st)
  | c :: cs, plants, st =>
    let r := upd plants c st
    let rest := creaturesStep upd cs r.1.2 r.2
    ((r.1.1 :: rest.1.1, rest.1.2), rest.2)

/-- The plant growth step, textually identical in both variants: increment
age; grow by `growthRate * dayBonus * rainBonus` while below `maxSize`, where
`dayBonus = Math.sin(dayPhase * π) * 0.5 + 0.5` and rain boosts growth by
1.5. -/
def growPlant (e : Env) (dayPhase : ℚ) (weather : Weather) (p0 : Plant) : Plant :=
  let p := { p0 with age := p0.age + 1 }
  let dayBonus := e.sinv (dayPhase * piQ) * 0.5 + 0.5
  let rainBonus : ℚ := if weather = .rain then 1.5 else 1
  if p.size < p.maxSize then
    { p with size := p.size + p.growthRate * dayBonus * rainBonus }
  else p

/-- JavaScript truncation toward zero of a rational. -/
def jsTrunc (x : ℚ) : ℤ := x.num / (x.den : ℤ)

/-- JavaScript `x % 1` (remainder keeps the sign of `x`):
`x - trunc(x)`. -/
def jsModOne (x : ℚ) : ℚ := x - (jsTrunc x : ℚ)

/-- The reproduction check of variant A's `updatePlant`: with age above 2000,
size above 80% of `maxSize` and a `Math.random() < 0.0005` draw, clamp a
random offset from the parent position to the 30-unit margin and, if the live
plant count is below 300, append a small clone. -/
def plantRep (e : Env) (width height : ℚ) (p : Plant) (plants1 : List Plant)
    (st : SimSt) : List Plant × SimSt :=
  if p.age > 2000 ∧ p.size > p.maxSize * 0.8 then
    let r := mathRandom e st
    if r.1 < 0.0005 then
      let ox := randomInRangeU e (-40) 40 r.2
      let oy := randomInRangeU e (-40) 40 ox.2
      let npos : Vector2 :=
        ⟨max 30 (min (width - 30) (p.pos.x + ox.1)),
         max 30 (min (height - 30) (p.pos.y + oy.1))⟩
      if plants1.length < 300 then
        let np := createPlant e p.type width height (some npos) true oy.2
        (plants1 ++ [np.1], np.2)
      else (plants1, oy.2)
    else (plants1, r.2)
  else (plants1, st)

/-- One visit of variant A's `updatePlant` on the plant at live index `k`:
grow/age in place; run the reproduction check; finally, a plant shrunk below
0.5 is spliced out at its index. -/
def plantStepA (e : Env) (width height dayPhase : ℚ) (weather : Weather)
    (plants : List Plant) (k : ℕ) (st : SimSt) : List Plant × SimSt :=
  match plants.get? k with
  | none => (plants, st)
  | some p0 =>
    let p := growPlant e dayPhase weather p0
    let plants1 := plants.set k p
    let rep := plantRep e width height p plants1 st
    if p.size < 0.5 then (rep.1.eraseIdx k, rep.2) else rep

/-- `world.plants.forEach(p => updatePlant(p, world))` of variant A: the
iteration bound is the length at loop start; removals shift later plants into
visited slots and appended plants can slide below the bound, both of which the
live-index access reproduces. -/
def plantsLoopA (e : Env) (width height dayPhase : ℚ) (weather : Weather)
    (plants : List Plant) (st : SimSt) : List Plant × SimSt :=
  (List.range plants.length).foldl
    (fun acc k => plantStepA e width height dayPhase weather acc.1 k acc.2)
    (plants, st)

/-- Position/life integration of one particle (the mutation performed inside
variant A's filter callback). -/
def particleStep (p : Particle) : Particle :=
  { p with pos := ⟨p.pos.x + p.vel.x, p.pos.y + p.vel.y⟩, life := p.life - 1 }

/-- `updateParticles` of variant A: integrate and keep particles with
`life > 0 && pos.y < height`; under rain, with probability 0.3 emit a falling
drop just above the top edge; under clear weather, with probability 0.02 emit
a slow-rising mote just below the bottom edge. -/
def updateParticles (e : Env) (width height : ℚ) (weather : Weather)
    (particles : List Particle) (st : SimSt) : List Particle × SimSt :=
  let ps := (particles.map particleStep).filter
    (fun p => decide (p.life > 0) && decide (p.pos.y < height))
  let afterRain : List Particle × SimSt :=
    if weather = .rain then
      let r := mathRandom e st
      if r.1 < 0.3 then
        let x := mathRandom e r.2
        (ps ++ [{ pos := ⟨x.1 * width, -5⟩
                  vel := ⟨-0.5, 3⟩
                  life := 200
                  maxLife := 200
                  size := 2
                  color := "#a0c4e8" }], x.2)
      else (ps, r.2)
    else (ps, st)
  if weather = .clear then
    let r := mathRandom e afterRain.2
    if r.1 < 0.02 then
      let x := mathRandom e r.2
      let vx := randomInRangeU e (-0.2) 0.2 x.2
      let vy := randomInRangeU e (-0.5) (-0.2) vx.2
      (afterRain.1 ++ [{ pos := ⟨x.1 * width, height + 5⟩
                         vel := ⟨vx.1, vy.1⟩
                         life := 300
                         maxLife := 300
                         size := 2
                         color := "#fff8dc" }], vy.2)
    else (afterRain.1, r.2)
  else afterRain

/-- The `weathers` array of `updateWeather` (both variants). -/
def weathersList : List Weather := [.clear, .clear, .clear, .rain, .windy]

/-- `updateWeather` (identical in both variants): with probability 0.0003
resample the weather uniformly from `weathersList`. -/
def updateWeather (e : Env) (weather : Weather) (st : SimSt) : Weather × SimSt :=
  let r := mathRandom e st
  if r.1 < 0.0003 then
    let i := mathRandom e r.2
    (weathersList.getD (⌊i.1 * 5⌋).toNat .clear, i.2)
  else (weather, r.2)

/-- `updateWorld` of variant A: advance time and day phase, update creatures,
plants, particles, weather — in that order. -/
def updateWorldA (e : Env) (w : World) (st : SimSt) : World × SimSt :=
  let time1 := w.time + 1
  let day1 := jsModOne (w.dayPhase + 0.00005)
  let cr := creaturesStep (updateCreatureA e w.width w.height time1)
    w.creatures w.plants st
  let pl := plantsLoopA e w.width w.height day1 w.weather cr.1.2 cr.2
  let pa := updateParticles e w.width w.height w.weather w.particles pl.2
  let we := updateWeather e w.weather pa.2
  ({ w with
      creatures := cr.1.1
      plants := pl.1
      particles := pa.1
      time := time1
      weather := we.1
      dayPhase := day1 }, we.2)

/-- `updatePlant` of variant B: grow/age, reproduction disabled, and floor
the size at 0.5 instead of removing the plant. -/
def updatePlantB (e : Env) (dayPhase : ℚ) (weather : Weather) (p0 : Plant) : Plant :=
  let p := growPlant e dayPhase weather p0
  if p.size < 0.5 then { p with size := 0.5 } else p

/-- `updateWorld` of variant B: advance time, freeze the day phase at noon,
update creatures then plants (no structural changes), then weather; no
particle subsystem. -/
def updateWorldB (e : Env) (w : World) (st : SimSt) : World × SimSt :=
  let time1 := w.time + 1
  let day1 : ℚ := 0.5
  let cr := creaturesStep (updateCreatureB e w.width w.height time1)
    w.creatures w.plants st
  let pl := cr.1.2.map (updatePlantB e day1 w.weather)
  let we := updateWeather e w.weather cr.2
  ({ w with
      creatures := cr.1.1
      plants := pl
      time := time1
      weather := we.1
      dayPhase := day1 }, we.2)

/-- One variant-A tick on a world paired with the RNG state. -/
def stepA (e : Env) (ws : World × SimSt) : World × SimSt :=
  updateWorldA e ws.1 ws.2

/-- One variant-B tick on a world paired with the RNG state. -/
def stepB (e : Env) (ws : World × SimSt) : World × SimSt :=
  updateWorldB e ws.1 ws.2

/-- One loop body of the "small wildflowers" segment of `createWorld`: create
a wildflower, then halve its size and maxSize before pushing. -/
def smallWildItem (e : Env) (width height : ℚ) (st : SimSt) : Plant × SimSt :=
  let p := createPlant e .wildflower width height none false st
  ({ p.1 with size := p.1.size * 0.5, maxSize := p.1.maxSize * 0.5 }, p.2)

/-- One mushroom of a mushroom patch: random offsets of up to 25 units from
the patch center, clamped to the 30-unit margin. -/
def mushroomPatchItem (e : Env) (width height cx cy : ℚ) (st : SimSt) :
    Plant × SimSt :=
  let ox := randomInRange (-25) 25 st
  let oy := randomInRange (-25) 25 ox.2
  let pos : Vector2 :=
    ⟨max 30 (min (width - 30) (cx + ox.1)),
     max 30 (min (height - 30) (cy + oy.1))⟩
  createPlant e .mushroom width height (some pos) false oy.2

/-- One mushroom patch of `createWorld`: a patch center inside a 60-unit
margin, then 2–3 mushrooms scattered around it. -/
def mushroomPatch (e : Env) (width height : ℚ) (st : SimSt) :
    List Plant × SimSt :=
  let cx := randomInRange 60 (width - 60) st
  let cy := randomInRange 60 (height - 60) cx.2
  let r := seededRandom cy.2
  let cnt := 2 + (⌊r.1 * 2⌋).toNat
  buildList cnt (mushroomPatchItem e width height cx.1 cy.1) r.2

/-- One moss cushion of a (tight) moss patch: offsets of up to 20 units,
clamped to the 20-unit margin. -/
def mossPatchItem (e : Env) (width height cx cy : ℚ) (st : SimSt) :
    Plant × SimSt :=
  let ox := randomInRange (-20) 20 st
  let oy := randomInRange (-20) 20 ox.2
  let pos : Vector2 :=
    ⟨max 20 (min (width - 20) (cx + ox.1)),
     max 20 (min (height - 20) (cy + oy.1))⟩
  createPlant e .moss width height (some pos) false oy.2

/-- One tight moss patch of `createWorld`: center inside a 50-unit margin,
4–8 cushions. -/
def mossPatch (e : Env) (width height : ℚ) (st : SimSt) : List Plant × SimSt :=
  let cx := randomInRange 50 (width - 50) st
  let cy := randomInRange 50 (height - 50) cx.2
  let r := seededRandom cy.2
  let cnt := 4 + (⌊r.1 * 5⌋).toNat
  buildList cnt (mossPatchItem e width height cx.1 cy.1) r.2

/-- One cushion of a wide moss patch: offsets of up to 50 units, then a size
multiplier of `1.3 + seededRandom() * 0.5`. -/
def wideMossItem (e : Env) (width height cx cy : ℚ) (st : SimSt) :
    Plant × SimSt :=
  let ox := randomInRange (-50) 50 st
  let oy := randomInRange (-50) 50 ox.2
  let pos : Vector2 :=
    ⟨max 20 (min (width - 20) (cx + ox.1)),
     max 20 (min (height - 20) (cy + oy.1))⟩
  let p := createPlant e .moss width height (some pos) false oy.2
  let m := seededRandom p.2
  ({ p.1 with size := p.1.size * (1.3 + m.1 * 0.5) }, m.2)

/-- One wide moss patch of `createWorld`: center inside an 80-unit margin,
10–17 cushions. -/
def wideMossPatch (e : Env) (width height : ℚ) (st : SimSt) :
    List Plant × SimSt :=
  let cx := randomInRange 80 (width - 80) st
  let cy := randomInRange 80 (height - 80) cx.2
  let r := seededRandom cy.2
  let cnt := 10 + (⌊r.1 * 8⌋).toNat
  buildList cnt (wideMossItem e width height cx.1 cy.1) r.2

/-- One cushion of an extra-large moss patch: offsets of up to 90 units, then
a size multiplier of `1.5 + seededRandom() * 0.8`. -/
def bigMossItem (e : Env) (width height cx cy : ℚ) (st : SimSt) :
    Plant × SimSt :=
  let ox := randomInRange (-90) 90 st
  let oy := randomInRange (-90) 90 ox.2
  let pos : Vector2 :=
    ⟨max 20 (min (width - 20) (cx + ox.1)),
     max 20 (min (height - 20) (cy + oy.1))⟩
  let p := createPlant e .moss width height (some pos) false oy.2
  let m := seededRandom p.2
  ({ p.1 with size := p.1.size * (1.5 + m.1 * 0.8) }, m.2)

/-- One extra-large moss patch of `createWorld`: center inside a 100-unit
margin, 25–39 cushions. -/
def bigMossPatch (e : Env) (width height : ℚ) (st : SimSt) :
    List Plant × SimSt :=
  let cx := randomInRange 100 (width - 100) st
  let cy := randomInRange 100 (height - 100) cx.2
  let r := seededRandom cy.2
  let cnt := 25 + (⌊r.1 * 15⌋).toNat
  buildList cnt (bigMossItem e width height cx.1 cy.1) r.2

/-- One large moss mound of `createWorld`: a moss plant with size and maxSize
doubled. -/
def largeMossItem (e : Env) (width height : ℚ) (st : SimSt) : Plant × SimSt :=
  let p := createPlant e .moss width height none false st
  ({ p.1 with size := p.1.size * 2, maxSize := p.1.maxSize * 2 }, p.2)

/-- The creature-creation segments of `createWorld`, in source order: 10
bugs, 7 snails, 12 butterflies, 4 dragonflies, 8 bees, 10 caterpillars, 80
ants. -/
def creatureSegments (e : Env) (width height : ℚ) :
    List (SimSt → List Creature × SimSt) :=
  [buildList 10 (createCreature e .bug width height),
   buildList 7 (createCreature e .snail width height),
   buildList 12 (createCreature e .butterfly width height),
   buildList 4 (createCreature e .dragonfly width height),
   buildList 8 (createCreature e .bee width height),
   buildList 10 (createCreature e .caterpillar width height),
   buildList 80 (createCreature e .ant width height)]

/-- The plant-creation segments of `createWorld`, in source order: 40
flowers, 25 daisies, 20 tulips, 30 wildflowers, 20 small wildflowers, 10
poppies, 350 grass, 6 scattered mushrooms, 6 mushroom patches, 220 blades,
25 scattered moss, 10 moss patches, 7 wide moss patches, 2 extra-large moss
patches, 5 large moss mounds. -/
def plantSegments (e : Env) (width height : ℚ) :
    List (SimSt → List Plant × SimSt) :=
  [buildList 40 (createPlant e .flower width height none false),
   buildList 25 (createPlant e .daisy width height none false),
   buildList 20 (createPlant e .tulip width height none false),
   buildList 30 (createPlant e .wildflower width height none false),
   buildList 20 (smallWildItem e width height),
   buildList 10 (createPlant e .poppy width height none false),
   buildList 350 (createPlant e .grass width height none false),
   buildList 6 (createPlant e .mushroom width height none false),
   flatSeg 6 (mushroomPatch e width height),
   buildList 220 (createPlant e .blade width height none false),
   buildList 25 (createPlant e .moss width height none false),
   flatSeg 10 (mossPatch e width height),
   flatSeg 7 (wideMossPatch e width height),
   flatSeg 2 (bigMossPatch e width height),
   buildList 5 (largeMossItem e width height)]

/-- `createWorld` of `create.ts`: reset the seed, then populate the creature
and plant collections segment by segment in source order, and return a world
at time 0, clear weather and an early-morning day phase. -/
def createWorld (e : Env) (width height : ℚ) (st0 : SimSt) : World × SimSt :=
  let st := resetSeed st0
  let cr := chainLists (creatureSegments e width height) st
  let pl := chainLists (plantSegments e width height) cr.2
  ({ width := width
     height := height
     creatures := cr.1
     plants := pl.1
     particles := []
     time := 0
     weather := .clear
     dayPhase := 0.35 }, pl.2)

/-- A creature with its id erased; two creatures agree after `stripId` exactly
when they agree on every field except the id. -/
def Creature.stripId (c : Creature) : Creature := { c with id := "" }

/-- A plant with its id erased. -/
def Plant.stripId (p : Plant) : Plant := { p with id := "" }

/-- Trace relation for one plant-phase pass: every plant of `cur` either
corresponds (same id and position) to a plant of `orig`, or carries a freshly
minted id from the environment's id stream. -/
def PlantTrace (e : Env) (orig cur : List Plant) : Prop :=
  ∀ p2 ∈ cur, (∃ q ∈ orig, q.id = p2.id ∧ q.pos = p2.pos) ∨ (∃ n, p2.id = e.ids n)

/-- Initial RNG state used by concrete instantiations. -/
def st0 : SimSt := ⟨0, 12345⟩

/-- A concrete valid environment: every `Math.random()` draw is 1/2, sine and
cosine evaluate to 0, square roots to 0, ids are empty. -/
def env0 : Env :=
  { rand := fun _ => 1/2
    ids := fun _ => ""
    sinv := fun _ => 0
    cosv := fun _ => 0
    sqrtv := fun _ => 0 }

/-- A concrete valid environment whose `Math.random()` draws are all 0.7, so
every state-machine transition lands in the `rest` branch. -/
def envRest : Env :=
  { rand := fun _ => 7/10
    ids := fun _ => ""
    sinv := fun _ => 0
    cosv := fun _ => 0
    sqrtv := fun _ => 0 }

/-- A concrete valid environment whose `Math.random()` draws are all 0, so
the rain emission check `Math.random() < 0.3` fires. -/
def envZero : Env :=
  { rand := fun _ => 0
    ids := fun _ => ""
    sinv := fun _ => 0
    cosv := fun _ => 0
    sqrtv := fun _ => 0 }

/-- A concrete valid environment whose sine evaluates to 1 (the value of
`Math.sin(0.5 * Math.PI)`), giving the peak-noon growth multiplier. -/
def envNoon : Env :=
  { rand := fun _ => 1/2
    ids := fun _ => ""
    sinv := fun _ => 1
    cosv := fun _ => 0
    sqrtv := fun _ => 0 }

/-- A concrete valid environment whose first `Math.random()` draw is 0.9
(selecting the eat-attempt transition branch) and whose later draws are 0;
square roots evaluate to 0, so the plant search sees distance 0. -/
def envEat : Env :=
  { rand := fun n => if n = 0 then 9/10 else 0
    ids := fun _ => ""
    sinv := fun _ => 0
    cosv := fun _ => 0
    sqrtv := fun _ => 0 }

/-- A concrete rainy world with no entities, used to exhibit a freshly
emitted rain particle sitting above the top edge. -/
def wRain : World :=
  { width := 100
    height := 100
    creatures := []
    plants := []
    particles := []
    time := 0
    weather := .rain
    dayPhase := 0 }

/-- A concrete plant just below its maximum size, with the largest creation
growth rate. -/
def pNearMax : Plant :=
  { id := "p1"
    pos := ⟨50, 50⟩
    size := 9.99
    maxSize := 10
    growthRate := 0.008
    color := "#ffffff"
    type := .daisy
    age := 0 }

/-- A concrete plant within eating range for the transition search. -/
def pTarget : Plant :=
  { id := "p2"
    pos := ⟨30, 30⟩
    size := 4
    maxSize := 10
    growthRate := 0.002
    color := "#ffffff"
    type := .grass
    age := 0 }

/-- A concrete creature whose dwell timer expires on the next tick. -/
def cHungry : Creature :=
  { id := "c1"
    pos := ⟨30, 31⟩
    vel := ⟨0, 0⟩
    size := 4
    color := "#5d4e37"
    type := .bug
    state := .wander
    stateTimer := 0
    energy := 50 }

/-- A world with a single plant, used to instantiate the frame claims. -/
def wOne : World :=
  { width := 100
    height := 100
    creatures := []
    plants := [pTarget]
    particles := []
    time := 0
    weather := .clear
    dayPhase := 0 }

/-- The single plant of `wOne` after one variant-A tick under `env0`: aged by
one and grown by `0.002 * 0.5`. -/
def grownTarget : Plant := { pTarget with size := 4.001, age := 1 }



/-- The first creature pushed by `createWorld env0 100 100 st0` (the first
bug). -/
def firstBug : Creature := (createCreature env0 .bug 100 100 (resetSeed st0)).1

/-- The rain particle emitted on the first tick of `wRain` under `envZero`. -/
def rainDrop : Particle :=
  { pos := ⟨0, -5⟩
    vel := ⟨-0.5, 3⟩
    life := 200
    maxLife := 200
    size := 2
    color := "#a0c4e8" }

/-! ## Basic facts about the random sources -/

theorem nextSeed_lt (s : ℕ) : nextSeed s < 2147483648 :=
  Nat.mod_lt _ (by norm_num)

theorem seededRandom_mem (st : SimSt) :
    0 ≤ (seededRandom st).1 ∧ (seededRandom st).1 ≤ 1 := by
  have h := nextSeed_lt st.seed
  simp only [seededRandom]
  constructor
  · exact div_nonneg (Nat.cast_nonneg _) (by norm_num)
  · rw [div_le_one (by norm_num)]
    exact_mod_cast Nat.le_of_lt_succ (by omega)

theorem randomInRange_mem (lo hi : ℚ) (st : SimSt) (h : lo ≤ hi) :
    lo ≤ (randomInRange lo hi st).1 ∧ (randomInRange lo hi st).1 ≤ hi := by
  obtain ⟨h0, h1⟩ := seededRandom_mem st
  simp only [randomInRange]
  constructor
  · nlinarith
  · nlinarith

theorem randomInRangeU_mem (e : Env) (hv : Env.Valid e) (lo hi : ℚ) (st : SimSt)
    (h : lo ≤ hi) :
    lo ≤ (randomInRangeU e lo hi st).1 ∧ (randomInRangeU e lo hi st).1 ≤ hi := by
  obtain ⟨hr, -, -⟩ := hv
  obtain ⟨h0, h1⟩ := hr st.k
  simp only [randomInRangeU, mathRandom]
  constructor
  · nlinarith
  · nlinarith

/-! ## Boundary bounce: positions stay inside the margin -/

theorem bounceAxis_mem (limit p v : ℚ) (h : 40 ≤ limit) :
    20 ≤ (bounceAxis limit p v).1 ∧ (bounceAxis limit p v).1 ≤ limit - 20 := by
  simp only [bounceAxis]
  split_ifs <;> constructor <;> simp only [] <;> linarith

theorem applyVelocityAndBounds_mem (width height : ℚ) (c : Creature)
    (hw : 40 ≤ width) (hh : 40 ≤ height) :
    20 ≤ (applyVelocityAndBounds width height c).pos.x ∧
    (applyVelocityAndBounds width height c).pos.x ≤ width - 20 ∧
    20 ≤ (applyVelocityAndBounds width height c).pos.y ∧
    (applyVelocityAndBounds width height c).pos.y ≤ height - 20 := by
  obtain ⟨hx1, hx2⟩ := bounceAxis_mem width (c.pos.x + c.vel.x) c.vel.x hw
  obtain ⟨hy1, hy2⟩ := bounceAxis_mem height (c.pos.y + c.vel.y) c.vel.y hh
  exact ⟨hx1, hx2, hy1, hy2⟩

theorem creatureEat_pos (pred : Plant → Bool) (plants : List Plant)
    (c : Creature) : (creatureEat pred plants c).1.pos = c.pos := by
  simp only [creatureEat]
  split_ifs <;> rfl

theorem updateCreatureA_pos (e : Env) (width height : ℚ) (time : ℕ)
    (plants : List Plant) (c0 : Creature) (st : SimSt) :
    ((updateCreatureA e width height time plants c0 st).1.1).pos =
      (applyVelocityAndBounds width height
        (butterflyDrift e time
          (if ({ c0 with stateTimer := c0.stateTimer - 1 } : Creature).stateTimer ≤ 0 then
            (creatureTransition e (speedsA c0.type)
              (plants.find? (eatSearchPredA e c0.pos))
              { c0 with stateTimer := c0.stateTimer - 1 } st)
          else ({ c0 with stateTimer := c0.stateTimer - 1 }, st)).1)).pos := by
  simp only [updateCreatureA, creatureEat_pos]

theorem updateCreatureA_mem (e : Env) (width height : ℚ) (time : ℕ)
    (plants : List Plant) (c0 : Creature) (st : SimSt)
    (hw : 40 ≤ width) (hh : 40 ≤ height) :
    20 ≤ ((updateCreatureA e width height time plants c0 st).1.1).pos.x ∧
    ((updateCreatureA e width height time plants c0 st).1.1).pos.x ≤ width - 20 ∧
    20 ≤ ((updateCreatureA e width height time plants c0 st).1.1).pos.y ∧
    ((updateCreatureA e width height time plants c0 st).1.1).pos.y ≤ height - 20 := by
  rw [updateCreatureA_pos]
  exact applyVelocityAndBounds_mem width height _ hw hh

theorem updateCreatureB_pos (e : Env) (width height : ℚ) (time : ℕ)
    (plants : List Plant) (c0 : Creature) (st : SimSt) :
    ((updateCreatureB e width height time plants c0 st).1.1).pos =
      (applyVelocityAndBounds width height
        (butterflyDrift e time
          (if ({ c0 with stateTimer := c0.stateTimer - 1 } : Creature).stateTimer ≤ 0 then
            (creatureTransition e (speedsB c0.type)
              (findNearbyPlant e plants c0.pos 50 3)
              { c0 with stateTimer := c0.stateTimer - 1 } st)
          else ({ c0 with stateTimer := c0.stateTimer - 1 }, st)).1)).pos := by
  simp only [updateCreatureB, creatureEat_pos]

theorem updateCreatureB_mem (e : Env) (width height : ℚ) (time : ℕ)
    (plants : List Plant) (c0 : Creature) (st : SimSt)
    (hw : 40 ≤ width) (hh : 40 ≤ height) :
    20 ≤ ((updateCreatureB e width height time plants c0 st).1.1).pos.x ∧
    ((updateCreatureB e width height time plants c0 st).1.1).pos.x ≤ width - 20 ∧
    20 ≤ ((updateCreatureB e width height time plants c0 st).1.1).pos.y ∧
    ((updateCreatureB e width height time plants c0 st).1.1).pos.y ≤ height - 20 := by
  rw [updateCreatureB_pos]
  exact applyVelocityAndBounds_mem width height _ hw hh

/-! ## The creature loop: pointwise facts lift to the whole collection -/

theorem creaturesStep_mem
    (upd : List Plant → Creature → SimSt → (Creature × List Plant) × SimSt)
    (P : Creature → Prop)
    (hP : ∀ plants c st, P ((upd plants c st).1.1)) :
    ∀ (cs : List Creature) (plants : List Plant) (st : SimSt),
      ∀ c ∈ (creaturesStep upd cs plants st).1.1, P c := by
  intro cs
  induction cs with
  | nil => intro plants st c hc; simp [creaturesStep] at hc
  | cons c0 cs ih =>
    intro plants st c hc
    simp only [creaturesStep, List.mem_cons] at hc
    rcases hc with h | h
    · rw [h]; exact hP _ _ _
    · exact ih _ _ c h

/-! ## Creation: membership and basic shape -/

theorem buildList_mem {α : Type} (n : ℕ) (f : SimSt → α × SimSt) :
    ∀ (st : SimSt), ∀ x ∈ (buildList n f st).1, ∃ st2, x = (f st2).1 := by
  induction n with
  | zero => intro st x hx; simp [buildList] at hx
  | succ n ih =>
    intro st x hx
    simp only [buildList, List.mem_cons] at hx
    rcases hx with h | h
    · exact ⟨st, h⟩
    · exact ih _ x h

theorem buildList_length {α : Type} (n : ℕ) (f : SimSt → α × SimSt) :
    ∀ st : SimSt, (buildList n f st).1.length = n := by
  induction n with
  | zero => intro st; rfl
  | succ n ih => intro st; simp [buildList, ih]

theorem createCreature_pos_mem (e : Env) (ty : CreatureType) (w h : ℚ)
    (st : SimSt) (hw : 40 ≤ w) (hh : 40 ≤ h) :
    20 ≤ ((createCreature e ty w h st).1).pos.x ∧
    ((createCreature e ty w h st).1).pos.x ≤ w - 20 ∧
    20 ≤ ((createCreature e ty w h st).1).pos.y ∧
    ((createCreature e ty w h st).1).pos.y ≤ h - 20 := by
  obtain ⟨hx1, hx2⟩ := randomInRange_mem 20 (w - 20) (randomId e st).2 (by linarith)
  obtain ⟨hy1, hy2⟩ :=
    randomInRange_mem 20 (h - 20) (randomInRange 20 (w - 20) (randomId e st).2).2
      (by linarith)
  simp only [createCreature]
  exact ⟨hx1, hx2, hy1, hy2⟩

theorem chainLists_mem {α : Type} :
    ∀ (fs : List (SimSt → List α × SimSt)) (st : SimSt),
      ∀ x ∈ (chainLists fs st).1, ∃ f ∈ fs, ∃ s, x ∈ (f s).1 := by
  intro fs
  induction fs with
  | nil => intro st x hx; simp [chainLists] at hx
  | cons f fs ih =>
    intro st x hx
    simp only [chainLists, List.mem_append] at hx
    rcases hx with hx | hx
    · exact ⟨f, List.mem_cons_self _ _, st, hx⟩
    · obtain ⟨g, hg, s, hs⟩ := ih _ x hx
      exact ⟨g, List.mem_cons_of_mem _ hg, s, hs⟩

theorem createWorld_creature_mem (e : Env) (w h : ℚ) (st : SimSt) :
    ∀ c ∈ ((createWorld e w h st).1).creatures,
      ∃ ty st2, c = (createCreature e ty w h st2).1 := by
  intro c hc
  have hc2 : c ∈ (chainLists (creatureSegments e w h) (resetSeed st)).1 := hc
  obtain ⟨f, hf, s, hmem⟩ := chainLists_mem _ _ c hc2
  simp only [creatureSegments, List.mem_cons, List.not_mem_nil, or_false] at hf
  rcases hf with rfl | rfl | rfl | rfl | rfl | rfl | rfl <;>
    · obtain ⟨st2, h2⟩ := buildList_mem _ _ _ c hmem
      exact ⟨_, st2, h2⟩

theorem firstBug_mem : firstBug ∈ ((createWorld env0 100 100 st0).1).creatures := by
  have h10 : (buildList 10 (createCreature env0 .bug 100 100) (resetSeed st0)).1 =
      firstBug :: (buildList 9 (createCreature env0 .bug 100 100)
        ((createCreature env0 .bug 100 100 (resetSeed st0)).2)).1 := rfl
  show firstBug ∈ (chainLists (creatureSegments env0 100 100) (resetSeed st0)).1
  simp only [creatureSegments, chainLists]
  rw [h10]
  simp

theorem stepA_width (e : Env) (ws : World × SimSt) :
    (stepA e ws).1.width = ws.1.width := rfl

theorem stepA_height (e : Env) (ws : World × SimSt) :
    (stepA e ws).1.height = ws.1.height := rfl

theorem stepB_width (e : Env) (ws : World × SimSt) :
    (stepB e ws).1.width = ws.1.width := rfl

theorem stepB_height (e : Env) (ws : World × SimSt) :
    (stepB e ws).1.height = ws.1.height := rfl

theorem iterateA_dims (e : Env) (ws : World × SimSt) (n : ℕ) :
    ((stepA e)^[n] ws).1.width = ws.1.width ∧
    ((stepA e)^[n] ws).1.height = ws.1.height := by
  induction n with
  | zero => simp
  | succ n ih =>
    rw [Function.iterate_succ_apply', stepA_width, stepA_height]
    exact ih

theorem iterateB_dims (e : Env) (ws : World × SimSt) (n : ℕ) :
    ((stepB e)^[n] ws).1.width = ws.1.width ∧
    ((stepB e)^[n] ws).1.height = ws.1.height := by
  induction n with
  | zero => simp
  | succ n ih =>
    rw [Function.iterate_succ_apply', stepB_width, stepB_height]
    exact ih

theorem createWorld_width (e : Env) (w h : ℚ) (st : SimSt) :
    ((createWorld e w h st).1).width = w := rfl

theorem createWorld_height (e : Env) (w h : ℚ) (st : SimSt) :
    ((createWorld e w h st).1).height = h := rfl

theorem stepA_creatures (e : Env) (ws : World × SimSt) :
    (stepA e ws).1.creatures =
      (creaturesStep (updateCreatureA e ws.1.width ws.1.height (ws.1.time + 1))
        ws.1.creatures ws.1.plants ws.2).1.1 := rfl

theorem stepB_creatures (e : Env) (ws : World × SimSt) :
    (stepB e ws).1.creatures =
      (creaturesStep (updateCreatureB e ws.1.width ws.1.height (ws.1.time + 1))
        ws.1.creatures ws.1.plants ws.2).1.1 := rfl

/-- Bounds of every creature position in a world reached from `createWorld`
by `n` ticks; shared backbone of the claim about bounded positions. -/
theorem iterA_pos_bounds (e : Env) (w h : ℚ) (st : SimSt)
    (hw : 40 ≤ w) (hh : 40 ≤ h) (n : ℕ) :
    ∀ c ∈ ((stepA e)^[n] (createWorld e w h st)).1.creatures,
      20 ≤ c.pos.x ∧ c.pos.x ≤ w - 20 ∧ 20 ≤ c.pos.y ∧ c.pos.y ≤ h - 20 := by
  cases n with
  | zero =>
    intro c hc
    rw [Function.iterate_zero_apply] at hc
    obtain ⟨ty, st2, rfl⟩ := createWorld_creature_mem e w h st c hc
    exact createCreature_pos_mem e ty w h st2 hw hh
  | succ n =>
    intro c hc
    rw [Function.iterate_succ_apply', stepA_creatures] at hc
    obtain ⟨hwd, hht⟩ := iterateA_dims e (createWorld e w h st) n
    rw [hwd, hht, createWorld_width, createWorld_height] at hc
    exact creaturesStep_mem _
      (fun c => 20 ≤ c.pos.x ∧ c.pos.x ≤ w - 20 ∧ 20 ≤ c.pos.y ∧ c.pos.y ≤ h - 20)
      (fun plants c0 s => updateCreatureA_mem e w h _ plants c0 s hw hh) _ _ _ c hc

/-- Variant-B version of `iterA_pos_bounds`. -/
theorem iterB_pos_bounds (e : Env) (w h : ℚ) (st : SimSt)
    (hw : 40 ≤ w) (hh : 40 ≤ h) (n : ℕ) :
    ∀ c ∈ ((stepB e)^[n] (createWorld e w h st)).1.creatures,
      20 ≤ c.pos.x ∧ c.pos.x ≤ w - 20 ∧ 20 ≤ c.pos.y ∧ c.pos.y ≤ h - 20 := by
  cases n with
  | zero =>
    intro c hc
    rw [Function.iterate_zero_apply] at hc
    obtain ⟨ty, st2, rfl⟩ := createWorld_creature_mem e w h st c hc
    exact createCreature_pos_mem e ty w h st2 hw hh
  | succ n =>
    intro c hc
    rw [Function.iterate_succ_apply', stepB_creatures] at hc
    obtain ⟨hwd, hht⟩ := iterateB_dims e (createWorld e w h st) n
    rw [hwd, hht, createWorld_width, createWorld_height] at hc
    exact creaturesStep_mem _
      (fun c => 20 ≤ c.pos.x ∧ c.pos.x ≤ w - 20 ∧ 20 ≤ c.pos.y ∧ c.pos.y ≤ h - 20)
      (fun plants c0 s => updateCreatureB_mem e w h _ plants c0 s hw hh) _ _ _ c hc

/-- C2: for every world created by `createWorld(width, height)` with
`width ≥ 40` and `height ≥ 40`, after any finite sequence of `updateWorld`
ticks (either update-loop variant), every creature satisfies
`20 ≤ pos.x ≤ width - 20` and `20 ≤ pos.y ≤ height - 20`: initial positions
are sampled inside the 20-unit margin, and the per-tick boundary handling
clamps a crossing coordinate to the margin and inverts that axis's velocity
component, never overshooting. -/
theorem c2_creature_positions_bounded (e : Env) (w h : ℚ) (st : SimSt)
    (hw : 40 ≤ w) (hh : 40 ≤ h) (n : ℕ) :
    (∀ c ∈ ((stepA e)^[n] (createWorld e w h st)).1.creatures,
      20 ≤ c.pos.x ∧ c.pos.x ≤ w - 20 ∧ 20 ≤ c.pos.y ∧ c.pos.y ≤ h - 20) ∧
    (∀ c ∈ ((stepB e)^[n] (createWorld e w h st)).1.creatures,
      20 ≤ c.pos.x ∧ c.pos.x ≤ w - 20 ∧ 20 ≤ c.pos.y ∧ c.pos.y ≤ h - 20) :=
  ⟨iterA_pos_bounds e w h st hw hh n, iterB_pos_bounds e w h st hw hh n⟩

/-- Witness for the bounded-positions claim: the first creature of a concrete
100×100 world. -/
theorem c2_witness :
    20 ≤ firstBug.pos.x ∧ firstBug.pos.x ≤ 100 - 20 ∧
    20 ≤ firstBug.pos.y ∧ firstBug.pos.y ≤ 100 - 20 :=
  (c2_creature_positions_bounded env0 100 100 st0 (by norm_num) (by norm_num) 0).1
    firstBug (by rw [Function.iterate_zero_apply]; exact firstBug_mem)

/-! ## Energy: the upper bound 100 is an invariant -/

theorem creatureTransition_energy (e : Env) (speed : ℚ) (search : Option Plant)
    (c : Creature) (st : SimSt) :
    ((creatureTransition e speed search c st).1).energy = c.energy := by
  simp only [creatureTransition]
  split_ifs <;> first | rfl | (cases search <;> rfl)

theorem butterflyDrift_energy (e : Env) (time : ℕ) (c : Creature) :
    (butterflyDrift e time c).energy = c.energy := by
  simp only [butterflyDrift]
  split_ifs <;> rfl

theorem applyVelocityAndBounds_energy (width height : ℚ) (c : Creature) :
    (applyVelocityAndBounds width height c).energy = c.energy := rfl

theorem creatureEat_energy_le (q : Plant → Bool) (plants : List Plant)
    (c : Creature) (h : c.energy ≤ 100) :
    (creatureEat q plants c).1.energy ≤ 100 := by
  simp only [creatureEat]
  split_ifs <;> simp [min_le_left, h]

theorem updateCreatureA_energy (e : Env) (width height : ℚ) (time : ℕ)
    (plants : List Plant) (c0 : Creature) (st : SimSt) (h : c0.energy ≤ 100) :
    ((updateCreatureA e width height time plants c0 st).1.1).energy ≤ 100 := by
  have key : ∀ (c4 : Creature) (q : Plant → Bool), c4.energy ≤ 100 →
      (creatureEat q plants c4).1.energy - 0.005 ≤ 100 := by
    intro c4 q h4
    have := creatureEat_energy_le q plants c4 h4
    linarith
  simp only [updateCreatureA]
  apply key
  rw [applyVelocityAndBounds_energy, butterflyDrift_energy]
  split_ifs with ht
  · rw [creatureTransition_energy]; exact h
  · exact h

theorem updateCreatureB_energy (e : Env) (width height : ℚ) (time : ℕ)
    (plants : List Plant) (c0 : Creature) (st : SimSt) (h : c0.energy ≤ 100) :
    ((updateCreatureB e width height time plants c0 st).1.1).energy ≤ 100 := by
  have key : ∀ (c4 : Creature) (q : Plant → Bool), c4.energy ≤ 100 →
      (creatureEat q plants c4).1.energy - 0.005 ≤ 100 := by
    intro c4 q h4
    have := creatureEat_energy_le q plants c4 h4
    linarith
  simp only [updateCreatureB]
  apply key
  rw [applyVelocityAndBounds_energy, butterflyDrift_energy]
  split_ifs with ht
  · rw [creatureTransition_energy]; exact h
  · exact h

theorem creaturesStep_pres
    (upd : List Plant → Creature → SimSt → (Creature × List Plant) × SimSt)
    (P : Creature → Prop)
    (hP : ∀ plants c st, P c → P ((upd plants c st).1.1)) :
    ∀ (cs : List Creature) (plants : List Plant) (st : SimSt),
      (∀ c ∈ cs, P c) → ∀ c ∈ (creaturesStep upd cs plants st).1.1, P c := by
  intro cs
  induction cs with
  | nil => intro plants st hin c hc; simp [creaturesStep] at hc
  | cons c0 cs ih =>
    intro plants st hin c hc
    simp only [creaturesStep, List.mem_cons] at hc
    rcases hc with hc | hc
    · rw [hc]; exact hP _ _ _ (hin c0 (by simp))
    · exact ih _ _ (fun x hx => hin x (by simp [hx])) c hc

theorem createCreature_energy (e : Env) (ty : CreatureType) (w h : ℚ)
    (st : SimSt) : ((createCreature e ty w h st).1).energy = 100 := rfl

/-- C4: for every creature, at all times after any sequence of `updateWorld`
ticks (either variant), `energy ≤ 100`: energy starts at 100, eating raises
it by 0.1 clamped at 100, and every tick drains 0.005 afterward, so the
upper bound of 100 is preserved by every tick. -/
theorem c4_energy_upper_bound (e : Env) (w h : ℚ) (st : SimSt) (n : ℕ) :
    (∀ c ∈ ((stepA e)^[n] (createWorld e w h st)).1.creatures, c.energy ≤ 100) ∧
    (∀ c ∈ ((stepB e)^[n] (createWorld e w h st)).1.creatures, c.energy ≤ 100) := by
  constructor
  · induction n with
    | zero =>
      intro c hc
      rw [Function.iterate_zero_apply] at hc
      obtain ⟨ty, st2, rfl⟩ := createWorld_creature_mem e w h st c hc
      rw [createCreature_energy]
    | succ n ih =>
      intro c hc
      rw [Function.iterate_succ_apply', stepA_creatures] at hc
      exact creaturesStep_pres _ (fun c => c.energy ≤ 100)
        (fun plants c0 s h0 => updateCreatureA_energy e _ _ _ plants c0 s h0)
        _ _ _ ih c hc
  · induction n with
    | zero =>
      intro c hc
      rw [Function.iterate_zero_apply] at hc
      obtain ⟨ty, st2, rfl⟩ := createWorld_creature_mem e w h st c hc
      rw [createCreature_energy]
    | succ n ih =>
      intro c hc
      rw [Function.iterate_succ_apply', stepB_creatures] at hc
      exact creaturesStep_pres _ (fun c => c.energy ≤ 100)
        (fun plants c0 s h0 => updateCreatureB_energy e _ _ _ plants c0 s h0)
        _ _ _ ih c hc

/-- Witness for the energy upper bound at the first creature of a concrete
world. -/
theorem c4_witness : firstBug.energy ≤ 100 :=
  (c4_energy_upper_bound env0 100 100 st0 0).1 firstBug
    (by rw [Function.iterate_zero_apply]; exact firstBug_mem)

/-! ## Concrete environments are valid -/

theorem env0_valid : Env.Valid env0 := by
  refine ⟨fun n => ?_, fun x => ?_, fun x => ?_⟩ <;> norm_num [env0]

theorem envRest_valid : Env.Valid envRest := by
  refine ⟨fun n => ?_, fun x => ?_, fun x => ?_⟩ <;> norm_num [envRest]

theorem envZero_valid : Env.Valid envZero := by
  refine ⟨fun n => ?_, fun x => ?_, fun x => ?_⟩ <;> norm_num [envZero]

theorem envNoon_valid : Env.Valid envNoon := by
  refine ⟨fun n => ?_, fun x => ?_, fun x => ?_⟩ <;> norm_num [envNoon]

theorem envEat_valid : Env.Valid envEat := by
  refine ⟨fun n => ?_, fun x => ?_, fun x => ?_⟩ <;> simp only [envEat] <;>
    (try split_ifs) <;> norm_num

/-! ## Plant growth -/

/-- C3 (amended): for a plant that is not being eaten, one application of the
shared growth step leaves `size` non-decreasing, and `size` never exceeds
`max size (maxSize + growthRate * 1.5)`: growth applies only while
`size < maxSize`, so a single application can overshoot `maxSize` by at most
one increment `growthRate * dayBonus * rainBonus ≤ growthRate * 1.5`, after
which growth stops. -/
theorem c3_growth_monotone_overshoot (e : Env) (hv : Env.Valid e)
    (dayPhase : ℚ) (weather : Weather) (p : Plant) (hg : 0 ≤ p.growthRate) :
    p.size ≤ (growPlant e dayPhase weather p).size ∧
    (growPlant e dayPhase weather p).size ≤
      max p.size (p.maxSize + p.growthRate * 1.5) := by
  obtain ⟨-, hs, -⟩ := hv
  obtain ⟨hs1, hs2⟩ := hs (dayPhase * piQ)
  simp only [growPlant]
  set d := e.sinv (dayPhase * piQ) * 0.5 + 0.5 with hd
  have hday1 : (0:ℚ) ≤ d := by rw [hd]; linarith
  have hday2 : d ≤ 1 := by rw [hd]; linarith
  split_ifs <;> dsimp only <;> constructor <;>
    nlinarith [le_max_left p.size (p.maxSize + p.growthRate * 1.5),
      le_max_right p.size (p.maxSize + p.growthRate * 1.5),
      mul_nonneg hg hday1,
      mul_nonneg hg (by linarith : (0:ℚ) ≤ 1 - d)]

/-- Counterexample to C3 as stated: a plant with creation-shaped fields
(`size ≤ maxSize`, `growthRate` in the creation band) under peak-noon day
phase and rain exceeds `maxSize` after a single growth step. -/
theorem c3_counterexample :
    Env.Valid envNoon ∧ 0 ≤ pNearMax.growthRate ∧
    pNearMax.size ≤ pNearMax.maxSize ∧
    pNearMax.maxSize < (growPlant envNoon 0.5 .rain pNearMax).size := by
  refine ⟨envNoon_valid, by norm_num [pNearMax], by norm_num [pNearMax], ?_⟩
  norm_num [growPlant, envNoon, pNearMax]

/-- Witness for the amended growth claim at the concrete near-maximal
plant. -/
theorem c3_witness :
    pNearMax.size ≤ (growPlant envNoon 0.5 .rain pNearMax).size ∧
    (growPlant envNoon 0.5 .rain pNearMax).size ≤
      max pNearMax.size (pNearMax.maxSize + pNearMax.growthRate * 1.5) :=
  c3_growth_monotone_overshoot envNoon envNoon_valid 0.5 .rain pNearMax
    (by norm_num [pNearMax])

/-! ## The eat-attempt transition branch -/

/-- C6: when a creature's `stateTimer` has expired and the transition draw is
at least 0.85 (the eat-attempt branch), the engine searches the plant list
for the first plant within 50 units whose size exceeds 3; if one is found the
creature enters state `eat` with `stateTimer ∈ [60, 120]` and velocity equal
to half the given type speed directed toward that plant, and if none is found
the creature enters state `wander` with `stateTimer ∈ [60, 120]`; a failed
lookup is never an error and always leaves the creature in a defined state.
(The transition step is invoked by both `updateCreature` variants when the
decremented timer is at most 0; variant A passes
`plants.find? (eatSearchPredA e pos)` as the search, as stated here.) -/
theorem c6_eat_attempt_fallback (e : Env) (hv : Env.Valid e)
    (plants : List Plant) (c : Creature) (st : SimSt) (speed : ℚ)
    (hr : 0.85 ≤ e.rand st.k) :
    (∀ p, plants.find? (eatSearchPredA e c.pos) = some p →
      (creatureTransition e speed (plants.find? (eatSearchPredA e c.pos)) c st).1.state
          = .eat ∧
      60 ≤ (creatureTransition e speed (plants.find? (eatSearchPredA e c.pos)) c st).1.stateTimer ∧
      (creatureTransition e speed (plants.find? (eatSearchPredA e c.pos)) c st).1.stateTimer ≤ 120 ∧
      distance e c.pos p.pos < 50 ∧ 3 < p.size ∧
      (creatureTransition e speed (plants.find? (eatSearchPredA e c.pos)) c st).1.vel =
        ⟨(normalizeV e ⟨p.pos.x - c.pos.x, p.pos.y - c.pos.y⟩).x * speed * 0.5,
         (normalizeV e ⟨p.pos.x - c.pos.x, p.pos.y - c.pos.y⟩).y * speed * 0.5⟩) ∧
    (plants.find? (eatSearchPredA e c.pos) = none →
      (creatureTransition e speed (plants.find? (eatSearchPredA e c.pos)) c st).1.state
          = .wander ∧
      60 ≤ (creatureTransition e speed (plants.find? (eatSearchPredA e c.pos)) c st).1.stateTimer ∧
      (creatureTransition e speed (plants.find? (eatSearchPredA e c.pos)) c st).1.stateTimer ≤ 120) := by
  have hb1 : ¬ (e.rand st.k < 0.6) := not_lt.mpr (by linarith)
  have hb2 : ¬ (e.rand st.k < 0.85) := not_lt.mpr hr
  obtain ⟨hrand, -, -⟩ := hv
  obtain ⟨ht0, ht1⟩ := hrand (st.k + 1)
  constructor
  · intro p hfind
    have hpred := List.find?_some hfind
    simp only [eatSearchPredA, Bool.and_eq_true, decide_eq_true_eq] at hpred
    rw [hfind]
    simp only [creatureTransition, mathRandom, randomInRangeU, if_neg hb1, if_neg hb2]
    refine ⟨by trivial, by nlinarith, by nlinarith, hpred.1, hpred.2, by trivial⟩
  · intro hfind
    rw [hfind]
    simp only [creatureTransition, mathRandom, randomInRangeU, if_neg hb1, if_neg hb2]
    exact ⟨by trivial, by nlinarith, by nlinarith⟩

/-- Witness for the eat-attempt claim: a concrete creature whose timer has
expired, a 0.9 transition draw, and one edible plant in range. -/
theorem c6_witness :
    (creatureTransition envEat (speedsA .bug)
      ([pTarget].find? (eatSearchPredA envEat cHungry.pos)) cHungry st0).1.state
        = CreatureState.eat ∧
    60 ≤ (creatureTransition envEat (speedsA .bug)
      ([pTarget].find? (eatSearchPredA envEat cHungry.pos)) cHungry st0).1.stateTimer ∧
    (creatureTransition envEat (speedsA .bug)
      ([pTarget].find? (eatSearchPredA envEat cHungry.pos)) cHungry st0).1.stateTimer ≤ 120 := by
  have h := c6_eat_attempt_fallback envEat envEat_valid [pTarget] cHungry st0
    (speedsA .bug) (by norm_num [envEat, st0])
  have hpred : eatSearchPredA envEat cHungry.pos pTarget = true := by
    simp only [eatSearchPredA, Bool.and_eq_true, decide_eq_true_eq]
    norm_num [distance, pTarget, cHungry, envEat]
  have hfind : [pTarget].find? (eatSearchPredA envEat cHungry.pos) = some pTarget :=
    List.find?_cons_of_pos _ hpred
  obtain ⟨hsome, -⟩ := h
  obtain ⟨h1, h2, h3, -, -, -⟩ := hsome pTarget hfind
  exact ⟨h1, h2, h3⟩

/-! ## Particles -/

/-- C7 (amended): after every variant-A `updateWorld` tick, every particle
remaining in `world.particles` has `life > 0`.  The bounds half of the
original claim is false: pruning tests only `pos.y < height` (the bottom
edge), and emitters spawn rain particles at `y = -5` and clear-weather motes
at `y = height + 5`, both outside the world bounds. -/
theorem c7_particles_life_positive (e : Env) (w : World) (st : SimSt) :
    ∀ p ∈ (updateWorldA e w st).1.particles, 0 < p.life := by
  intro p hp
  have hf : ∀ q ∈ (w.particles.map particleStep).filter
      (fun q => decide (q.life > 0) && decide (q.pos.y < w.height)), 0 < q.life := by
    intro q hq
    rw [List.mem_filter] at hq
    have h2 := hq.2
    simp only [Bool.and_eq_true, decide_eq_true_eq] at h2
    exact h2.1
  have hp2 : p ∈ (updateParticles e w.width w.height w.weather w.particles
      (plantsLoopA e w.width w.height (jsModOne (w.dayPhase + 0.00005)) w.weather
        (creaturesStep (updateCreatureA e w.width w.height (w.time + 1))
          w.creatures w.plants st).1.2
        (creaturesStep (updateCreatureA e w.width w.height (w.time + 1))
          w.creatures w.plants st).2).2).1 := hp
  clear hp
  simp only [updateParticles] at hp2
  split_ifs at hp2 <;>
    simp only [List.mem_append, List.mem_singleton] at hp2 <;>
    first
    | exact hf _ hp2
    | (rcases hp2 with hp2 | rfl
       · exact hf _ hp2
       · norm_num)
    | (rcases hp2 with (hp2 | rfl) | rfl
       · exact hf _ hp2
       · norm_num
       · norm_num)

/-- Evaluation of one rainy tick on the empty concrete world: exactly one
particle is emitted, sitting 5 units above the top edge. -/
theorem wRain_particles_eval :
    (updateWorldA envZero wRain st0).1.particles = [rainDrop] := by
  simp [updateWorldA, updateParticles, plantsLoopA, creaturesStep, wRain,
    envZero, st0, mathRandom, rainDrop]
  norm_num

/-- Counterexample to C7 as stated: in a rainy world, one tick under a valid
environment leaves a particle at `y = -5`, outside the world bounds. -/
theorem c7_counterexample :
    Env.Valid envZero ∧
    ∃ p ∈ (updateWorldA envZero wRain st0).1.particles, p.pos.y < 0 := by
  refine ⟨envZero_valid, ?_⟩
  rw [wRain_particles_eval]
  refine ⟨_, List.mem_singleton_self _, by norm_num [rainDrop]⟩

/-- Witness for the amended particle claim at the concrete emitted rain
particle. -/
theorem c7_witness : 0 < rainDrop.life := by
  apply c7_particles_life_positive envZero wRain st0 rainDrop
  rw [wRain_particles_eval]
  exact List.mem_singleton_self _

/-! ## Energy has no floor: a reachable world with negative energy -/

theorem butterflyDrift_state (e : Env) (time : ℕ) (c : Creature) :
    (butterflyDrift e time c).state = c.state := by
  simp only [butterflyDrift]
  split_ifs <;> rfl

theorem applyVelocityAndBounds_state (width height : ℚ) (c : Creature) :
    (applyVelocityAndBounds width height c).state = c.state := rfl

theorem creatureEat_skip (q : Plant → Bool) (plants : List Plant) (c : Creature)
    (h : ¬ c.state = .eat) : creatureEat q plants c = (c, plants) := by
  simp only [creatureEat, if_neg h]

/-- Under the constant-0.7 draw environment, every state-machine transition
lands in the `rest` branch. -/
theorem creatureTransition_envRest (speed : ℚ) (search : Option Plant)
    (c : Creature) (s : SimSt) :
    (creatureTransition envRest speed search c s).1.state = .rest ∧
    (creatureTransition envRest speed search c s).1.energy = c.energy := by
  simp only [creatureTransition, mathRandom, envRest]
  norm_num

/-- Under `envRest`, a creature that is not eating stays out of the `eat`
state, loses exactly 0.005 energy, and leaves the plant list unchanged. -/
theorem updateCreatureA_noEat (width height : ℚ) (time : ℕ)
    (plants : List Plant) (c0 : Creature) (st : SimSt)
    (hc : ¬ c0.state = .eat) :
    ¬ ((updateCreatureA envRest width height time plants c0 st).1.1).state = .eat ∧
    ((updateCreatureA envRest width height time plants c0 st).1.1).energy
      = c0.energy - 0.005 ∧
    (updateCreatureA envRest width height time plants c0 st).1.2 = plants := by
  simp only [updateCreatureA]
  split_ifs with ht
  · rw [creatureEat_skip]
    · dsimp only
      refine ⟨?_, ?_, rfl⟩
      · rw [applyVelocityAndBounds_state, butterflyDrift_state,
          (creatureTransition_envRest _ _ _ _).1]
        simp
      · rw [applyVelocityAndBounds_energy, butterflyDrift_energy,
          (creatureTransition_envRest _ _ _ _).2]
    · rw [applyVelocityAndBounds_state, butterflyDrift_state,
        (creatureTransition_envRest _ _ _ _).1]
      simp
  · rw [creatureEat_skip]
    · dsimp only
      refine ⟨?_, ?_, rfl⟩
      · rw [applyVelocityAndBounds_state, butterflyDrift_state]
        exact hc
      · rw [applyVelocityAndBounds_energy, butterflyDrift_energy]
    · rw [applyVelocityAndBounds_state, butterflyDrift_state]
      exact hc

/-- Under `envRest`, one creature-loop pass shifts every energy down by 0.005
and keeps every creature out of the `eat` state. -/
theorem creaturesStep_envRest (width height : ℚ) (time : ℕ) :
    ∀ (cs : List Creature) (plants : List Plant) (st : SimSt),
      (∀ c ∈ cs, ¬ c.state = .eat) →
      ((creaturesStep (updateCreatureA envRest width height time) cs plants st).1.1.map
          (fun c => c.energy) = cs.map (fun c => c.energy - 0.005)) ∧
      (∀ c ∈ (creaturesStep (updateCreatureA envRest width height time) cs plants st).1.1,
        ¬ c.state = .eat) := by
  intro cs
  induction cs with
  | nil => intro plants st hin; exact ⟨rfl, by simp [creaturesStep]⟩
  | cons c0 cs ih =>
    intro plants st hin
    obtain ⟨hs, he, -⟩ := updateCreatureA_noEat width height time plants c0 st
      (hin c0 (by simp))
    obtain ⟨ihm, ihs⟩ := ih (updateCreatureA envRest width height time plants c0 st).1.2
      (updateCreatureA envRest width height time plants c0 st).2
      (fun x hx => hin x (by simp [hx]))
    constructor
    · simp only [creaturesStep, List.map_cons, he, ihm]
    · intro c hc
      simp only [creaturesStep, List.mem_cons] at hc
      rcases hc with hc | hc
      · rw [hc]; exact hs
      · exact ihs c hc

/-- Under `envRest`, one variant-A tick shifts every creature energy down by
0.005 and keeps every creature out of the `eat` state. -/
theorem stepA_envRest (ws : World × SimSt)
    (hin : ∀ c ∈ ws.1.creatures, ¬ c.state = .eat) :
    ((stepA envRest ws).1.creatures.map (fun c => c.energy) =
      ws.1.creatures.map (fun c => c.energy - 0.005)) ∧
    (∀ c ∈ (stepA envRest ws).1.creatures, ¬ c.state = .eat) := by
  rw [stepA_creatures]
  exact creaturesStep_envRest ws.1.width ws.1.height (ws.1.time + 1)
    ws.1.creatures ws.1.plants ws.2 hin

theorem createCreature_state (e : Env) (ty : CreatureType) (w h : ℚ)
    (st : SimSt) : ((createCreature e ty w h st).1).state = .wander := rfl

theorem createWorld_creature_initial (e : Env) (w h : ℚ) (st : SimSt) :
    ∀ c ∈ ((createWorld e w h st).1).creatures,
      c.energy = 100 ∧ ¬ c.state = .eat := by
  intro c hc
  obtain ⟨ty, st2, rfl⟩ := createWorld_creature_mem e w h st c hc
  refine ⟨createCreature_energy e ty w h st2, ?_⟩
  rw [createCreature_state]
  simp

/-- Under `envRest`, after `n` variant-A ticks every creature's energy is its
initial 100 minus `n * 0.005`, and no creature is ever in the `eat` state. -/
theorem iterateA_envRest_energy (w h : ℚ) (st : SimSt) (n : ℕ) :
    (((stepA envRest)^[n] (createWorld envRest w h st)).1.creatures.map
        (fun c => c.energy) =
      ((createWorld envRest w h st).1).creatures.map
        (fun c => c.energy - (n : ℚ) * 0.005)) ∧
    (∀ c ∈ ((stepA envRest)^[n] (createWorld envRest w h st)).1.creatures,
      ¬ c.state = .eat) := by
  induction n with
  | zero =>
    constructor
    · simp
    · intro c hc
      rw [Function.iterate_zero_apply] at hc
      exact (createWorld_creature_initial envRest w h st c hc).2
  | succ n ih =>
    obtain ⟨ihm, ihs⟩ := ih
    obtain ⟨hm, hs⟩ := stepA_envRest ((stepA envRest)^[n] (createWorld envRest w h st)) ihs
    constructor
    · rw [Function.iterate_succ_apply', hm]
      have hcomp : (fun c : Creature => c.energy - 0.005) =
          ((fun x : ℚ => x - 0.005) ∘ (fun c : Creature => c.energy)) := rfl
      rw [hcomp, ← List.map_map, ihm, List.map_map]
      apply List.map_congr_left
      intro c hc
      simp only [Function.comp_apply]
      push_cast
      ring
    · intro c hc
      rw [Function.iterate_succ_apply'] at hc
      exact hs c hc

theorem createWorld_creatures_length (e : Env) (w h : ℚ) (st : SimSt) :
    ((createWorld e w h st).1).creatures.length = 131 := by
  show (chainLists (creatureSegments e w h) (resetSeed st)).1.length = 131
  simp [creatureSegments, chainLists, List.length_append, buildList_length]

/-- C8: the lower bound 0 on creature energy is not guaranteed: under the
valid constant-0.7 environment (whose transitions always choose `rest`),
after 20001 variant-A ticks from a created world some creature's energy is
strictly negative — energy drains by 0.005 every tick and no floor is ever
applied. -/
theorem c8_energy_can_go_negative :
    Env.Valid envRest ∧
    ∃ n : ℕ, ∃ c ∈ ((stepA envRest)^[n] (createWorld envRest 100 100 st0)).1.creatures,
      c.energy < 0 := by
  refine ⟨envRest_valid, 20001, ?_⟩
  obtain ⟨hm, -⟩ := iterateA_envRest_energy 100 100 st0 20001
  have hlen : (((stepA envRest)^[20001] (createWorld envRest 100 100 st0)).1.creatures).length = 131 := by
    have := congrArg List.length hm
    simp only [List.length_map] at this
    rw [this, createWorld_creatures_length]
  have hne : (((stepA envRest)^[20001] (createWorld envRest 100 100 st0)).1.creatures) ≠ [] := by
    intro hnil
    rw [hnil] at hlen
    simp at hlen
  obtain ⟨c, hc⟩ := List.exists_mem_of_ne_nil _ hne
  refine ⟨c, hc, ?_⟩
  have hmem : c.energy ∈ (((stepA envRest)^[20001] (createWorld envRest 100 100 st0)).1.creatures.map
      (fun c => c.energy)) := List.mem_map_of_mem _ hc
  rw [hm] at hmem
  obtain ⟨c0, hc0, hval⟩ := List.mem_map.mp hmem
  have h100 := (createWorld_creature_initial envRest 100 100 st0 c0 hc0).1
  rw [← hval, h100]
  norm_num

/-! ## Plant population: capped reproduction never exceeds the initial count -/

theorem updateFirst_length {α : Type} (q : α → Bool) (f : α → α) :
    ∀ l : List α, (updateFirst q f l).1.length = l.length := by
  intro l
  induction l with
  | nil => rfl
  | cons x xs ih =>
    simp only [updateFirst]
    split_ifs <;> simp [ih]

theorem creatureEat_plants_length (q : Plant → Bool) (plants : List Plant)
    (c : Creature) : (creatureEat q plants c).2.length = plants.length := by
  simp only [creatureEat]
  split_ifs <;> simp [updateFirst_length]

theorem updateCreatureA_plants_length (e : Env) (width height : ℚ) (time : ℕ)
    (plants : List Plant) (c0 : Creature) (st : SimSt) :
    (updateCreatureA e width height time plants c0 st).1.2.length = plants.length := by
  simp only [updateCreatureA]
  exact creatureEat_plants_length _ _ _

theorem creaturesStep_plants_length (e : Env) (width height : ℚ) (time : ℕ) :
    ∀ (cs : List Creature) (plants : List Plant) (st : SimSt),
      (creaturesStep (updateCreatureA e width height time) cs plants st).1.2.length
        = plants.length := by
  intro cs
  induction cs with
  | nil => intro plants st; rfl
  | cons c0 cs ih =>
    intro plants st
    simp only [creaturesStep]
    rw [ih, updateCreatureA_plants_length]

theorem plantRep_length (e : Env) (width height : ℚ) (p : Plant)
    (plants1 : List Plant) (st : SimSt) (L : ℕ)
    (hL : plants1.length ≤ L) (h300 : 300 ≤ L) :
    (plantRep e width height p plants1 st).1.length ≤ L := by
  simp only [plantRep]
  split_ifs with h1 h2 h3 <;> simp only [List.length_append, List.length_singleton] <;> omega

theorem plantStepA_length (e : Env) (width height dayPhase : ℚ)
    (weather : Weather) (plants : List Plant) (k : ℕ) (st : SimSt) (L : ℕ)
    (hL : plants.length ≤ L) (h300 : 300 ≤ L) :
    (plantStepA e width height dayPhase weather plants k st).1.length ≤ L := by
  simp only [plantStepA]
  cases hget : plants.get? k with
  | none => exact hL
  | some p =>
    have hrep := plantRep_length e width height (growPlant e dayPhase weather p)
      (plants.set k (growPlant e dayPhase weather p)) st L
      (by rw [List.length_set]; exact hL) h300
    dsimp only
    split_ifs with h4
    · exact le_trans ((List.eraseIdx_sublist _ k).length_le) hrep
    · exact hrep


theorem plantsLoopA_length (e : Env) (width height dayPhase : ℚ)
    (weather : Weather) (plants : List Plant) (st : SimSt) (L : ℕ)
    (hL : plants.length ≤ L) (h300 : 300 ≤ L) :
    (plantsLoopA e width height dayPhase weather plants st).1.length ≤ L := by
  simp only [plantsLoopA]
  suffices h : ∀ (ks : List ℕ) (ps : List Plant) (s : SimSt), ps.length ≤ L →
      ((ks.foldl (fun acc k => plantStepA e width height dayPhase weather acc.1 k acc.2)
        (ps, s)).1.length ≤ L) from h _ plants st hL
  intro ks
  induction ks with
  | nil => intro ps s h; exact h
  | cons k ks ih =>
    intro ps s h
    simp only [List.foldl_cons]
    exact ih _ _ (plantStepA_length e width height dayPhase weather ps k s L h h300)

theorem stepA_plants (e : Env) (ws : World × SimSt) :
    (stepA e ws).1.plants =
      (plantsLoopA e ws.1.width ws.1.height (jsModOne (ws.1.dayPhase + 0.00005))
        ws.1.weather
        (creaturesStep (updateCreatureA e ws.1.width ws.1.height (ws.1.time + 1))
          ws.1.creatures ws.1.plants ws.2).1.2
        (creaturesStep (updateCreatureA e ws.1.width ws.1.height (ws.1.time + 1))
          ws.1.creatures ws.1.plants ws.2).2).1 := rfl

theorem stepA_plants_length (e : Env) (ws : World × SimSt) (L : ℕ)
    (hL : ws.1.plants.length ≤ L) (h300 : 300 ≤ L) :
    (stepA e ws).1.plants.length ≤ L := by
  rw [stepA_plants]
  apply plantsLoopA_length _ _ _ _ _ _ _ L _ h300
  rw [creaturesStep_plants_length]
  exact hL

theorem chainLists_length_ge {α : Type} (n : ℕ) :
    ∀ (fs : List (SimSt → List α × SimSt)),
      (∃ f ∈ fs, ∀ s, n ≤ (f s).1.length) →
      ∀ st, n ≤ (chainLists fs st).1.length := by
  intro fs
  induction fs with
  | nil => rintro ⟨f, hf, -⟩; simp at hf
  | cons f fs ih =>
    rintro ⟨g, hg, hlen⟩ st
    simp only [chainLists, List.length_append]
    rcases List.mem_cons.mp hg with rfl | hg
    · have := hlen st; omega
    · have := ih ⟨g, hg, hlen⟩ ((f st).2); omega

theorem createWorld_plants_lb (e : Env) (w h : ℚ) (st : SimSt) :
    300 < ((createWorld e w h st).1).plants.length := by
  have h350 : 350 ≤ ((createWorld e w h st).1).plants.length := by
    show 350 ≤ (chainLists (plantSegments e w h)
      (chainLists (creatureSegments e w h) (resetSeed st)).2).1.length
    apply chainLists_length_ge
    refine ⟨buildList 350 (createPlant e .grass w h none false), by simp [plantSegments],
      fun s => ?_⟩
    rw [buildList_length]
  omega

/-- C10: every world returned by `createWorld` starts with more than 300
plants, and the reproductive update variant spawns a new plant only when the
current plant count is strictly below 300; therefore, after any sequence of
variant-A ticks, the plant count never exceeds its value at creation. -/
theorem c10_plant_count_never_exceeds_initial (e : Env) (w h : ℚ) (st : SimSt) :
    300 < ((createWorld e w h st).1).plants.length ∧
    ∀ n : ℕ, (((stepA e)^[n] (createWorld e w h st)).1).plants.length ≤
      ((createWorld e w h st).1).plants.length := by
  have hinit := createWorld_plants_lb e w h st
  refine ⟨hinit, ?_⟩
  intro n
  induction n with
  | zero => rw [Function.iterate_zero_apply]
  | succ n ih =>
    rw [Function.iterate_succ_apply']
    exact stepA_plants_length e _ _ ih (le_of_lt hinit)

/-! ## Plant positions are a frame: ticks never move an existing plant -/

theorem forall2_idpos_refl :
    ∀ l : List Plant, List.Forall₂ (fun a b => b.id = a.id ∧ b.pos = a.pos) l l := by
  intro l
  induction l with
  | nil => exact .nil
  | cons x xs ih => exact .cons ⟨rfl, rfl⟩ ih

theorem forall2_idpos_trans {a b c : List Plant}
    (h1 : List.Forall₂ (fun a b => b.id = a.id ∧ b.pos = a.pos) a b)
    (h2 : List.Forall₂ (fun a b => b.id = a.id ∧ b.pos = a.pos) b c) :
    List.Forall₂ (fun a b => b.id = a.id ∧ b.pos = a.pos) a c := by
  induction h1 generalizing c with
  | nil => cases h2; exact .nil
  | cons hab h1x ih =>
    cases h2 with
    | cons hbc h2x => exact .cons ⟨hbc.1.trans hab.1, hbc.2.trans hab.2⟩ (ih h2x)

theorem updateFirst_idpos (q : Plant → Bool) :
    ∀ l : List Plant, List.Forall₂ (fun a b => b.id = a.id ∧ b.pos = a.pos) l
      (updateFirst q (fun p => { p with size := p.size - 0.01 }) l).1 := by
  intro l
  induction l with
  | nil => exact .nil
  | cons x xs ih =>
    simp only [updateFirst]
    split_ifs
    · exact .cons ⟨rfl, rfl⟩ (forall2_idpos_refl xs)
    · exact .cons ⟨rfl, rfl⟩ ih

theorem creatureEat_plants_idpos (q : Plant → Bool) (plants : List Plant)
    (c : Creature) :
    List.Forall₂ (fun a b => b.id = a.id ∧ b.pos = a.pos) plants
      (creatureEat q plants c).2 := by
  simp only [creatureEat]
  split_ifs <;> first | exact updateFirst_idpos q plants | exact forall2_idpos_refl plants

theorem updateCreatureA_plants_idpos (e : Env) (width height : ℚ) (time : ℕ)
    (plants : List Plant) (c0 : Creature) (st : SimSt) :
    List.Forall₂ (fun a b => b.id = a.id ∧ b.pos = a.pos) plants
      (updateCreatureA e width height time plants c0 st).1.2 := by
  simp only [updateCreatureA]
  exact creatureEat_plants_idpos _ plants _

theorem updateCreatureB_plants_idpos (e : Env) (width height : ℚ) (time : ℕ)
    (plants : List Plant) (c0 : Creature) (st : SimSt) :
    List.Forall₂ (fun a b => b.id = a.id ∧ b.pos = a.pos) plants
      (updateCreatureB e width height time plants c0 st).1.2 := by
  simp only [updateCreatureB]
  exact creatureEat_plants_idpos _ plants _

theorem creaturesStep_plants_idpos
    (upd : List Plant → Creature → SimSt → (Creature × List Plant) × SimSt)
    (hupd : ∀ plants c st, List.Forall₂ (fun a b => b.id = a.id ∧ b.pos = a.pos)
      plants (upd plants c st).1.2) :
    ∀ (cs : List Creature) (plants : List Plant) (st : SimSt),
      List.Forall₂ (fun a b => b.id = a.id ∧ b.pos = a.pos) plants
        (creaturesStep upd cs plants st).1.2 := by
  intro cs
  induction cs with
  | nil => intro plants st; exact forall2_idpos_refl plants
  | cons c0 cs ih =>
    intro plants st
    exact forall2_idpos_trans (hupd plants c0 st) (ih _ _)

theorem plantTrace_of_forall2 (e : Env) {orig mid : List Plant}
    (h : List.Forall₂ (fun a b => b.id = a.id ∧ b.pos = a.pos) orig mid) :
    PlantTrace e orig mid := by
  induction h with
  | nil => intro p2 hp2; simp at hp2
  | cons hab hx ih =>
    intro p2 hp2
    rcases List.mem_cons.mp hp2 with rfl | hp2
    · exact Or.inl ⟨_, List.mem_cons_self _ _, hab.1.symm, hab.2.symm⟩
    · rcases ih p2 hp2 with ⟨q, hq, hid, hpos⟩ | hfresh
      · exact Or.inl ⟨q, List.mem_cons_of_mem _ hq, hid, hpos⟩
      · exact Or.inr hfresh

theorem plantTrace_refl (e : Env) (l : List Plant) : PlantTrace e l l :=
  fun p2 hp2 => Or.inl ⟨p2, hp2, rfl, rfl⟩

theorem plantTrace_trans (e : Env) {a b c : List Plant}
    (h1 : PlantTrace e a b) (h2 : PlantTrace e b c) : PlantTrace e a c := by
  intro p2 hp2
  rcases h2 p2 hp2 with ⟨q, hq, hid, hpos⟩ | hfresh
  · rcases h1 q hq with ⟨q0, hq0, hid0, hpos0⟩ | ⟨n, hn⟩
    · exact Or.inl ⟨q0, hq0, hid0.trans hid, hpos0.trans hpos⟩
    · exact Or.inr ⟨n, hid ▸ hn⟩
  · exact Or.inr hfresh

theorem growPlant_id (e : Env) (d : ℚ) (wth : Weather) (p : Plant) :
    (growPlant e d wth p).id = p.id := by
  simp only [growPlant]
  split_ifs <;> rfl

theorem growPlant_pos (e : Env) (d : ℚ) (wth : Weather) (p : Plant) :
    (growPlant e d wth p).pos = p.pos := by
  simp only [growPlant]
  split_ifs <;> rfl

theorem seededRandom_snd (st : SimSt) :
    (seededRandom st).2 = ⟨st.k, nextSeed st.seed⟩ := rfl

theorem randomInRange_snd (lo hi : ℚ) (st : SimSt) :
    (randomInRange lo hi st).2 = ⟨st.k, nextSeed st.seed⟩ := rfl

theorem randomId_fst (e : Env) (st : SimSt) : (randomId e st).1 = e.ids st.k := rfl

theorem createPlant_id (e : Env) (ty : PlantType) (w h : ℚ)
    (pos : Option Vector2) (small : Bool) (st : SimSt) :
    ((createPlant e ty w h pos small st).1).id = e.ids st.k := by
  unfold createPlant
  dsimp only
  rw [randomInRange_snd, randomId_fst]

theorem plantRep_mem (e : Env) (width height : ℚ) (p : Plant)
    (plants1 : List Plant) (st : SimSt) :
    ∀ p2 ∈ (plantRep e width height p plants1 st).1,
      p2 ∈ plants1 ∨ ∃ n, p2.id = e.ids n := by
  intro p2 hp2
  simp only [plantRep] at hp2
  split_ifs at hp2
  · rcases List.mem_append.mp hp2 with hp2 | hp2
    · exact Or.inl hp2
    · rw [List.mem_singleton] at hp2
      subst hp2
      exact Or.inr ⟨_, createPlant_id _ _ _ _ _ _ _⟩
  · exact Or.inl hp2
  · exact Or.inl hp2
  · exact Or.inl hp2

theorem plantStepA_trace (e : Env) (width height dayPhase : ℚ)
    (weather : Weather) (cur : List Plant) (k : ℕ) (st : SimSt) :
    PlantTrace e cur (plantStepA e width height dayPhase weather cur k st).1 := by
  intro p2 hp2
  simp only [plantStepA] at hp2
  cases hget : cur.get? k with
  | none => rw [hget] at hp2; exact Or.inl ⟨p2, hp2, rfl, rfl⟩
  | some p =>
    rw [hget] at hp2
    dsimp only at hp2
    have hmem : p2 ∈ (plantRep e width height (growPlant e dayPhase weather p)
        (cur.set k (growPlant e dayPhase weather p)) st).1 := by
      split_ifs at hp2
      · exact (List.eraseIdx_sublist _ k).mem hp2
      · exact hp2
    rcases plantRep_mem e width height _ _ st p2 hmem with hset | hfresh
    · rcases List.mem_or_eq_of_mem_set hset with hcur | rfl
      · exact Or.inl ⟨p2, hcur, rfl, rfl⟩
      · exact Or.inl ⟨p, List.get?_mem hget,
          (growPlant_id e dayPhase weather p).symm, (growPlant_pos e dayPhase weather p).symm⟩
    · exact Or.inr hfresh

theorem plantsLoopA_trace (e : Env) (width height dayPhase : ℚ)
    (weather : Weather) (plants : List Plant) (st : SimSt) :
    PlantTrace e plants (plantsLoopA e width height dayPhase weather plants st).1 := by
  simp only [plantsLoopA]
  suffices h : ∀ (ks : List ℕ) (ps : List Plant) (s : SimSt),
      PlantTrace e ps ((ks.foldl
        (fun acc k => plantStepA e width height dayPhase weather acc.1 k acc.2)
        (ps, s)).1) from h _ plants st
  intro ks
  induction ks with
  | nil => intro ps s; exact plantTrace_refl e ps
  | cons k ks ih =>
    intro ps s
    simp only [List.foldl_cons]
    exact plantTrace_trans e (plantStepA_trace e width height dayPhase weather ps k s)
      (ih _ _)

theorem updatePlantB_id (e : Env) (d : ℚ) (wth : Weather) (p : Plant) :
    (updatePlantB e d wth p).id = p.id := by
  simp only [updatePlantB]
  split_ifs <;> simp [growPlant_id]

theorem updatePlantB_pos (e : Env) (d : ℚ) (wth : Weather) (p : Plant) :
    (updatePlantB e d wth p).pos = p.pos := by
  simp only [updatePlantB]
  split_ifs <;> simp [growPlant_pos]

theorem stepB_plants (e : Env) (ws : World × SimSt) :
    (stepB e ws).1.plants =
      ((creaturesStep (updateCreatureB e ws.1.width ws.1.height (ws.1.time + 1))
        ws.1.creatures ws.1.plants ws.2).1.2).map
          (updatePlantB e 0.5 ws.1.weather) := rfl

/-- C9: a plant present in `world.plants` before a tick and still present
after it (same id, under the hypotheses that the pre-tick ids are distinct
and the environment's freshly minted ids avoid them) has an unchanged
position, in both update-loop variants: eating changes only size, growth
changes only size and age, and reproduction appends new plants at new
positions without moving originals. -/
theorem c9_plant_positions_fixed (e : Env) (w : World) (st : SimSt)
    (hnd : (w.plants.map Plant.id).Nodup)
    (hfresh : ∀ n, e.ids n ∉ w.plants.map Plant.id) :
    (∀ p ∈ w.plants, ∀ p2 ∈ (updateWorldA e w st).1.plants,
      p.id = p2.id → p2.pos = p.pos) ∧
    (∀ p ∈ w.plants, ∀ p2 ∈ (updateWorldB e w st).1.plants,
      p.id = p2.id → p2.pos = p.pos) := by
  have hinj : ∀ x ∈ w.plants, ∀ y ∈ w.plants, x.id = y.id → x = y :=
    List.inj_on_of_nodup_map hnd
  constructor
  · intro p hp p2 hp2
    intro hid
    have htrace : PlantTrace e w.plants (updateWorldA e w st).1.plants := by
      have h1 : PlantTrace e w.plants
          ((creaturesStep (updateCreatureA e w.width w.height (w.time + 1))
            w.creatures w.plants st).1.2) :=
        plantTrace_of_forall2 e (creaturesStep_plants_idpos _
          (fun plants c s => updateCreatureA_plants_idpos e w.width w.height
            (w.time + 1) plants c s) w.creatures w.plants st)
      have h2 := plantsLoopA_trace e w.width w.height
        (jsModOne (w.dayPhase + 0.00005)) w.weather
        ((creaturesStep (updateCreatureA e w.width w.height (w.time + 1))
          w.creatures w.plants st).1.2)
        ((creaturesStep (updateCreatureA e w.width w.height (w.time + 1))
          w.creatures w.plants st).2)
      exact plantTrace_trans e h1 h2
    rcases htrace p2 hp2 with ⟨q, hq, hqid, hqpos⟩ | ⟨n, hn⟩
    · have : q = p := hinj q hq p hp (hqid.trans hid.symm)
      rw [← this, hqpos]
    · exact absurd (List.mem_map_of_mem Plant.id hp)
        (by rw [hid, hn]; exact hfresh n)
  · intro p hp p2 hp2 hid
    have hbe : (updateWorldB e w st).1.plants =
        ((creaturesStep (updateCreatureB e w.width w.height (w.time + 1))
          w.creatures w.plants st).1.2).map (updatePlantB e 0.5 w.weather) := rfl
    rw [hbe] at hp2
    obtain ⟨q1, hq1, rfl⟩ := List.mem_map.mp hp2
    have h1 : PlantTrace e w.plants
        ((creaturesStep (updateCreatureB e w.width w.height (w.time + 1))
          w.creatures w.plants st).1.2) :=
      plantTrace_of_forall2 e (creaturesStep_plants_idpos _
        (fun plants c s => updateCreatureB_plants_idpos e w.width w.height
          (w.time + 1) plants c s) w.creatures w.plants st)
    rcases h1 q1 hq1 with ⟨q, hq, hqid, hqpos⟩ | ⟨n, hn⟩
    · rw [updatePlantB_id] at hid
      have : q = p := hinj q hq p hp (hqid.trans hid.symm)
      rw [updatePlantB_pos, ← this, hqpos]
    · rw [updatePlantB_id] at hid
      exact absurd (List.mem_map_of_mem Plant.id hp)
        (by rw [hid, hn]; exact hfresh n)

/-- Evaluation of one variant-A tick on the single-plant world: the plant
ages by one and grows by `0.002 * 0.5`, staying in place. -/
theorem wOne_plants_eval :
    (updateWorldA env0 wOne st0).1.plants = [grownTarget] := by
  have hcr : (Weather.clear = Weather.rain) = False := by simp
  norm_num [updateWorldA, plantsLoopA, plantStepA, plantRep, creaturesStep,
    growPlant, wOne, env0, st0, pTarget, grownTarget, mathRandom, jsModOne,
    jsTrunc, List.range_succ, hcr]

/-- Witness for the plant-frame claim: the single plant of `wOne` keeps its
position through a tick. -/
theorem c9_witness : grownTarget.pos = pTarget.pos :=
  (c9_plant_positions_fixed env0 wOne st0 (by simp [wOne, pTarget])
    (by intro n; simp [env0, wOne, pTarget])).1
    pTarget (by simp [wOne]) grownTarget (by rw [wOne_plants_eval]; simp) rfl

/-! ## The seeded RNG never returns 1: the orbit of seed 12345 avoids
0x7fffffff -/

theorem lcgChunk_snd : ∀ (n s : ℕ), (lcgChunk n s).2 = lcgIter n s := by
  intro n
  induction n with
  | zero => intro s; rfl
  | succ n ih => intro s; simp only [lcgChunk, lcgIter]; exact ih (nextSeed s)

theorem lcgChunk_avoid : ∀ (n s : ℕ), (lcgChunk n s).1 = true →
    ∀ k, k < n → lcgIter k s ≠ 2147483647 := by
  intro n
  induction n with
  | zero => intro s h k hk; omega
  | succ n ih =>
    intro s h k hk
    simp only [lcgChunk, Bool.and_eq_true, decide_eq_true_eq] at h
    cases k with
    | zero => exact h.1
    | succ k => exact ih (nextSeed s) h.2 k (by omega)

theorem lcgChunk_append (m n s : ℕ) :
    lcgChunk (m + n) s = ((lcgChunk m s).1 && (lcgChunk n (lcgChunk m s).2).1,
      (lcgChunk n (lcgChunk m s).2).2) := by
  induction m generalizing s with
  | zero => simp [lcgChunk]
  | succ m ih =>
    have hadd : m + 1 + n = (m + n) + 1 := by omega
    rw [hadd]
    simp only [lcgChunk, ih (nextSeed s), Bool.and_assoc]

theorem lcgChunk_step {m n s t u : ℕ} (h1 : lcgChunk m s = (true, t))
    (h2 : lcgChunk n t = (true, u)) : lcgChunk (m + n) s = (true, u) := by
  rw [lcgChunk_append, h1]
  simp [h2]

theorem lcgIter_append (m n s : ℕ) :
    lcgIter (m + n) s = lcgIter n (lcgIter m s) := by
  induction m generalizing s with
  | zero => simp [lcgIter]
  | succ m ih =>
    have hadd : m + 1 + n = (m + n) + 1 := by omega
    rw [hadd]
    simp only [lcgIter]
    exact ih (nextSeed s)

theorem lcgIter_succ_right (n s : ℕ) :
    lcgIter (n + 1) s = nextSeed (lcgIter n s) := by
  rw [lcgIter_append n 1 s]
  rfl
/-! Orbit checkpoints: the seed after each chunk of steps, verified by
kernel evaluation; `lcgCum` theorems accumulate them from the initial seed. -/

theorem lcgSeg1 : lcgChunk 100 12345 = (true, 1851949312) := by decide

theorem lcgSeg2 : lcgChunk 100 1851949312 = (true, 1346637824) := by decide

theorem lcgSeg3 : lcgChunk 100 1346637824 = (true, 1015143424) := by decide

theorem lcgSeg4 : lcgChunk 100 1015143424 = (true, 2012367616) := by decide

theorem lcgSeg5 : lcgChunk 100 2012367616 = (true, 39137024) := by decide

theorem lcgSeg6 : lcgChunk 100 39137024 = (true, 1685532416) := by decide

theorem lcgSeg7 : lcgChunk 100 1685532416 = (true, 24317440) := by decide

theorem lcgSeg8 : lcgChunk 100 24317440 = (true, 1713526848) := by decide

theorem lcgSeg9 : lcgChunk 100 1713526848 = (true, 1677086720) := by decide

theorem lcgSeg10 : lcgChunk 100 1677086720 = (true, 435338496) := by decide

theorem lcgSeg11 : lcgChunk 100 435338496 = (true, 1863572736) := by decide

theorem lcgSeg12 : lcgChunk 100 1863572736 = (true, 919607296) := by decide

theorem lcgSeg13 : lcgChunk 100 919607296 = (true, 333824576) := by decide

theorem lcgSeg14 : lcgChunk 100 333824576 = (true, 1653378816) := by decide

theorem lcgSeg15 : lcgChunk 100 1653378816 = (true, 482995456) := by decide

theorem lcgSeg16 : lcgChunk 100 482995456 = (true, 2137129280) := by decide

theorem lcgSeg17 : lcgChunk 100 2137129280 = (true, 1512683264) := by decide

theorem lcgSeg18 : lcgChunk 100 1512683264 = (true, 1648163840) := by decide

theorem lcgSeg19 : lcgChunk 100 1648163840 = (true, 1383248960) := by decide

theorem lcgSeg20 : lcgChunk 100 1383248960 = (true, 386701824) := by decide

theorem lcgSeg21 : lcgChunk 100 386701824 = (true, 1376717376) := by decide

theorem lcgSeg22 : lcgChunk 100 1376717376 = (true, 763995392) := by decide

theorem lcgSeg23 : lcgChunk 100 763995392 = (true, 1304325888) := by decide

theorem lcgSeg24 : lcgChunk 100 1304325888 = (true, 1899990528) := by decide

theorem lcgSeg25 : lcgChunk 100 1899990528 = (true, 566651136) := by decide

theorem lcgSeg26 : lcgChunk 100 566651136 = (true, 1473445888) := by decide

theorem lcgSeg27 : lcgChunk 100 1473445888 = (true, 1986708032) := by decide

theorem lcgSeg28 : lcgChunk 100 1986708032 = (true, 1999355648) := by decide

theorem lcgSeg29 : lcgChunk 100 1999355648 = (true, 1957710848) := by decide

theorem lcgSeg30 : lcgChunk 100 1957710848 = (true, 401041280) := by decide

theorem lcgSeg31 : lcgChunk 100 401041280 = (true, 1693894400) := by decide

theorem lcgSeg32 : lcgChunk 100 1693894400 = (true, 1776379904) := by decide

theorem lcgSeg33 : lcgChunk 100 1776379904 = (true, 629681152) := by decide

theorem lcgSeg34 : lcgChunk 100 629681152 = (true, 255065088) := by decide

theorem lcgSeg35 : lcgChunk 100 255065088 = (true, 369225792) := by decide

theorem lcgSeg36 : lcgChunk 100 369225792 = (true, 1019024896) := by decide

theorem lcgSeg37 : lcgChunk 100 1019024896 = (true, 973282688) := by decide

theorem lcgSeg38 : lcgChunk 100 973282688 = (true, 1479805952) := by decide

theorem lcgSeg39 : lcgChunk 100 1479805952 = (true, 427756544) := by decide

theorem lcgSeg40 : lcgChunk 100 427756544 = (true, 2033467648) := by decide

theorem lcgSeg41 : lcgChunk 100 2033467648 = (true, 99030272) := by decide

theorem lcgSeg42 : lcgChunk 100 99030272 = (true, 374742016) := by decide

theorem lcgSeg43 : lcgChunk 100 374742016 = (true, 256396544) := by decide

theorem lcgSeg44 : lcgChunk 100 256396544 = (true, 619987328) := by decide

theorem lcgSeg45 : lcgChunk 100 619987328 = (true, 1145230400) := by decide

theorem lcgSeg46 : lcgChunk 100 1145230400 = (true, 1994443008) := by decide

theorem lcgSeg47 : lcgChunk 100 1994443008 = (true, 1420878336) := by decide

theorem lcgSeg48 : lcgChunk 100 1420878336 = (true, 258467840) := by decide

theorem lcgSeg49 : lcgChunk 100 258467840 = (true, 340511232) := by decide

theorem lcgSeg50 : lcgChunk 100 340511232 = (true, 1163664704) := by decide

theorem lcgSeg51 : lcgChunk 100 1163664704 = (true, 518543360) := by decide

theorem lcgSeg52 : lcgChunk 100 518543360 = (true, 535147520) := by decide

theorem lcgSeg53 : lcgChunk 100 535147520 = (true, 358665536) := by decide

theorem lcgSeg54 : lcgChunk 100 358665536 = (true, 1428450816) := by decide

theorem lcgSeg55 : lcgChunk 100 1428450816 = (true, 1842225920) := by decide

theorem lcgSeg56 : lcgChunk 100 1842225920 = (true, 239056192) := by decide

theorem lcgSeg57 : lcgChunk 100 239056192 = (true, 1360920064) := by decide

theorem lcgSeg58 : lcgChunk 100 1360920064 = (true, 1425540352) := by decide

theorem lcgSeg59 : lcgChunk 100 1425540352 = (true, 1095419776) := by decide

theorem lcgSeg60 : lcgChunk 38 1095419776 = (true, 1372572160) := by decide

theorem lcgSeg61 : lcgChunk 100 1372572160 = (true, 344822272) := by decide

theorem lcgSeg62 : lcgChunk 100 344822272 = (true, 706750976) := by decide

theorem lcgSeg63 : lcgChunk 100 706750976 = (true, 957781312) := by decide

theorem lcgSeg64 : lcgChunk 100 957781312 = (true, 1996491008) := by decide

theorem lcgSeg65 : lcgChunk 100 1996491008 = (true, 1592481792) := by decide

theorem lcgSeg66 : lcgChunk 100 1592481792 = (true, 65058560) := by decide

theorem lcgSeg67 : lcgChunk 100 65058560 = (true, 1814836480) := by decide

theorem lcgSeg68 : lcgChunk 100 1814836480 = (true, 1678953216) := by decide

theorem lcgSeg69 : lcgChunk 100 1678953216 = (true, 35052544) := by decide

theorem lcgSeg70 : lcgChunk 100 35052544 = (true, 1367644416) := by decide

theorem lcgSeg71 : lcgChunk 100 1367644416 = (true, 1141223744) := by decide

theorem lcgSeg72 : lcgChunk 100 1141223744 = (true, 481495040) := by decide

theorem lcgSeg73 : lcgChunk 100 481495040 = (true, 892080896) := by decide

theorem lcgSeg74 : lcgChunk 100 892080896 = (true, 1846521344) := by decide

theorem lcgSeg75 : lcgChunk 100 1846521344 = (true, 2116016128) := by decide

theorem lcgSeg76 : lcgChunk 100 2116016128 = (true, 1478518016) := by decide

theorem lcgSeg77 : lcgChunk 100 1478518016 = (true, 998812160) := by decide

theorem lcgSeg78 : lcgChunk 100 998812160 = (true, 1466103552) := by decide

theorem lcgSeg79 : lcgChunk 100 1466103552 = (true, 685203712) := by decide

theorem lcgSeg80 : lcgChunk 100 685203712 = (true, 398906880) := by decide

theorem lcgSeg81 : lcgChunk 100 398906880 = (true, 1367795712) := by decide

theorem lcgSeg82 : lcgChunk 100 1367795712 = (true, 1794089728) := by decide

theorem lcgSeg83 : lcgChunk 100 1794089728 = (true, 1552748288) := by decide

theorem lcgSeg84 : lcgChunk 100 1552748288 = (true, 843736832) := by decide

theorem lcgSeg85 : lcgChunk 100 843736832 = (true, 2030923776) := by decide

theorem lcgSeg86 : lcgChunk 100 2030923776 = (true, 1555897912) := by decide

theorem lcgSeg87 : lcgChunk 100 1555897912 = (true, 783011712) := by decide

theorem lcgSeg88 : lcgChunk 100 783011712 = (true, 1912532480) := by decide

theorem lcgSeg89 : lcgChunk 100 1912532480 = (true, 1801620480) := by decide

theorem lcgSeg90 : lcgChunk 100 1801620480 = (true, 1511380224) := by decide

theorem lcgSeg91 : lcgChunk 100 1511380224 = (true, 690064640) := by decide

theorem lcgSeg92 : lcgChunk 100 690064640 = (true, 814814464) := by decide

theorem lcgSeg93 : lcgChunk 100 814814464 = (true, 1035424768) := by decide

theorem lcgSeg94 : lcgChunk 100 1035424768 = (true, 1336792576) := by decide

theorem lcgSeg95 : lcgChunk 100 1336792576 = (true, 1134795264) := by decide

theorem lcgSeg96 : lcgChunk 100 1134795264 = (true, 1001902592) := by decide

theorem lcgSeg97 : lcgChunk 100 1001902592 = (true, 241072896) := by decide

theorem lcgSeg98 : lcgChunk 100 241072896 = (true, 1798580224) := by decide

theorem lcgSeg99 : lcgChunk 100 1798580224 = (true, 1478313088) := by decide

theorem lcgSeg100 : lcgChunk 100 1478313088 = (true, 291169024) := by decide

theorem lcgSeg101 : lcgChunk 100 291169024 = (true, 889168192) := by decide

theorem lcgSeg102 : lcgChunk 100 889168192 = (true, 886790976) := by decide

theorem lcgSeg103 : lcgChunk 100 886790976 = (true, 301660480) := by decide

theorem lcgSeg104 : lcgChunk 100 301660480 = (true, 2059444288) := by decide

theorem lcgSeg105 : lcgChunk 100 2059444288 = (true, 253600256) := by decide

theorem lcgSeg106 : lcgChunk 100 253600256 = (true, 2069179904) := by decide

theorem lcgSeg107 : lcgChunk 100 2069179904 = (true, 1609067008) := by decide

theorem lcgSeg108 : lcgChunk 100 1609067008 = (true, 1232616192) := by decide

theorem lcgSeg109 : lcgChunk 100 1232616192 = (true, 1061548800) := by decide

theorem lcgSeg110 : lcgChunk 100 1061548800 = (true, 1224117376) := by decide

theorem lcgSeg111 : lcgChunk 100 1224117376 = (true, 970728000) := by decide

theorem lcgSeg112 : lcgChunk 100 970728000 = (true, 1670710144) := by decide

theorem lcgSeg113 : lcgChunk 100 1670710144 = (true, 1344888320) := by decide

theorem lcgSeg114 : lcgChunk 100 1344888320 = (true, 1158375936) := by decide

theorem lcgSeg115 : lcgChunk 100 1158375936 = (true, 558102016) := by decide

theorem lcgSeg116 : lcgChunk 100 558102016 = (true, 1529455424) := by decide

theorem lcgSeg117 : lcgChunk 100 1529455424 = (true, 969361920) := by decide

theorem lcgSeg118 : lcgChunk 100 969361920 = (true, 1714836736) := by decide

theorem lcgSeg119 : lcgChunk 100 1714836736 = (true, 618423808) := by decide

theorem lcgSeg120 : lcgChunk 100 618423808 = (true, 178256896) := by decide

theorem lcgSeg121 : lcgChunk 100 178256896 = (true, 736093184) := by decide

theorem lcgSeg122 : lcgChunk 100 736093184 = (true, 688878208) := by decide

theorem lcgSeg123 : lcgChunk 100 688878208 = (true, 765854208) := by decide

theorem lcgSeg124 : lcgChunk 100 765854208 = (true, 2134965824) := by decide

theorem lcgSeg125 : lcgChunk 100 2134965824 = (true, 300424448) := by decide

theorem lcgSeg126 : lcgChunk 100 300424448 = (true, 1951940096) := by decide

theorem lcgSeg127 : lcgChunk 100 1951940096 = (true, 72458752) := by decide

theorem lcgSeg128 : lcgChunk 100 72458752 = (true, 962560512) := by decide

theorem lcgSeg129 : lcgChunk 100 962560512 = (true, 633217280) := by decide

theorem lcgSeg130 : lcgChunk 100 633217280 = (true, 64309248) := by decide

theorem lcgSeg131 : lcgChunk 100 64309248 = (true, 894907200) := by decide

theorem lcgSeg132 : lcgChunk 100 894907200 = (true, 1272020480) := by decide

theorem lcgSeg133 : lcgChunk 100 1272020480 = (true, 1681014272) := by decide

theorem lcgSeg134 : lcgChunk 100 1681014272 = (true, 1394057728) := by decide

theorem lcgSeg135 : lcgChunk 100 1394057728 = (true, 1063848256) := by decide

theorem lcgSeg136 : lcgChunk 100 1063848256 = (true, 1913828672) := by decide

theorem lcgSeg137 : lcgChunk 100 1913828672 = (true, 1134425088) := by decide

theorem lcgSeg138 : lcgChunk 100 1134425088 = (true, 490834496) := by decide

theorem lcgSeg139 : lcgChunk 100 490834496 = (true, 1013923328) := by decide

theorem lcgSeg140 : lcgChunk 100 1013923328 = (true, 689058048) := by decide

theorem lcgSeg141 : lcgChunk 100 689058048 = (true, 1622192384) := by decide

theorem lcgSeg142 : lcgChunk 100 1622192384 = (true, 329349944) := by decide

theorem lcgSeg143 : lcgChunk 100 329349944 = (true, 1216658432) := by decide

theorem lcgSeg144 : lcgChunk 100 1216658432 = (true, 218994944) := by decide

theorem lcgSeg145 : lcgChunk 100 218994944 = (true, 1352775424) := by decide

theorem lcgSeg146 : lcgChunk 100 1352775424 = (true, 1311367936) := by decide

theorem lcgSeg147 : lcgChunk 100 1311367936 = (true, 891302400) := by decide

theorem lcgSeg148 : lcgChunk 100 891302400 = (true, 1579152128) := by decide

theorem lcgSeg149 : lcgChunk 100 1579152128 = (true, 1555222272) := by decide

theorem lcgSeg150 : lcgChunk 100 1555222272 = (true, 1725896704) := by decide

theorem lcgSeg151 : lcgChunk 100 1725896704 = (true, 1460100608) := by decide

theorem lcgSeg152 : lcgChunk 100 1460100608 = (true, 710968640) := by decide

theorem lcgSeg153 : lcgChunk 100 710968640 = (true, 1319838528) := by decide

theorem lcgSeg154 : lcgChunk 100 1319838528 = (true, 2026834496) := by decide

theorem lcgSeg155 : lcgChunk 100 2026834496 = (true, 1111802112) := by decide

theorem lcgSeg156 : lcgChunk 100 1111802112 = (true, 1955134464) := by decide

theorem lcgSeg157 : lcgChunk 100 1955134464 = (true, 1136439552) := by decide

theorem lcgSeg158 : lcgChunk 100 1136439552 = (true, 437930752) := by decide

theorem lcgSeg159 : lcgChunk 100 437930752 = (true, 1324593664) := by decide

theorem lcgSeg160 : lcgChunk 100 1324593664 = (true, 89215232) := by decide

theorem lcgSeg161 : lcgChunk 100 89215232 = (true, 297914688) := by decide

theorem lcgSeg162 : lcgChunk 100 297914688 = (true, 2069337472) := by decide

theorem lcgSeg163 : lcgChunk 100 2069337472 = (true, 813582592) := by decide

theorem lcgSeg164 : lcgChunk 100 813582592 = (true, 2031763712) := by decide

theorem lcgSeg165 : lcgChunk 66 2031763712 = (true, 1372572160) := by decide


theorem lcgCum1 : lcgChunk 100 12345 = (true, 1851949312) := lcgSeg1

theorem lcgCum2 : lcgChunk 200 12345 = (true, 1346637824) := by
  rw [show (200 : ℕ) = 100 + 100 by norm_num]
  exact lcgChunk_step lcgCum1 lcgSeg2

theorem lcgCum3 : lcgChunk 300 12345 = (true, 1015143424) := by
  rw [show (300 : ℕ) = 200 + 100 by norm_num]
  exact lcgChunk_step lcgCum2 lcgSeg3

theorem lcgCum4 : lcgChunk 400 12345 = (true, 2012367616) := by
  rw [show (400 : ℕ) = 300 + 100 by norm_num]
  exact lcgChunk_step lcgCum3 lcgSeg4

theorem lcgCum5 : lcgChunk 500 12345 = (true, 39137024) := by
  rw [show (500 : ℕ) = 400 + 100 by norm_num]
  exact lcgChunk_step lcgCum4 lcgSeg5

theorem lcgCum6 : lcgChunk 600 12345 = (true, 1685532416) := by
  rw [show (600 : ℕ) = 500 + 100 by norm_num]
  exact lcgChunk_step lcgCum5 lcgSeg6

theorem lcgCum7 : lcgChunk 700 12345 = (true, 24317440) := by
  rw [show (700 : ℕ) = 600 + 100 by norm_num]
  exact lcgChunk_step lcgCum6 lcgSeg7

theorem lcgCum8 : lcgChunk 800 12345 = (true, 1713526848) := by
  rw [show (800 : ℕ) = 700 + 100 by norm_num]
  exact lcgChunk_step lcgCum7 lcgSeg8

theorem lcgCum9 : lcgChunk 900 12345 = (true, 1677086720) := by
  rw [show (900 : ℕ) = 800 + 100 by norm_num]
  exact lcgChunk_step lcgCum8 lcgSeg9

theorem lcgCum10 : lcgChunk 1000 12345 = (true, 435338496) := by
  rw [show (1000 : ℕ) = 900 + 100 by norm_num]
  exact lcgChunk_step lcgCum9 lcgSeg10

theorem lcgCum11 : lcgChunk 1100 12345 = (true, 1863572736) := by
  rw [show (1100 : ℕ) = 1000 + 100 by norm_num]
  exact lcgChunk_step lcgCum10 lcgSeg11

theorem lcgCum12 : lcgChunk 1200 12345 = (true, 919607296) := by
  rw [show (1200 : ℕ) = 1100 + 100 by norm_num]
  exact lcgChunk_step lcgCum11 lcgSeg12

theorem lcgCum13 : lcgChunk 1300 12345 = (true, 333824576) := by
  rw [show (1300 : ℕ) = 1200 + 100 by norm_num]
  exact lcgChunk_step lcgCum12 lcgSeg13

theorem lcgCum14 : lcgChunk 1400 12345 = (true, 1653378816) := by
  rw [show (1400 : ℕ) = 1300 + 100 by norm_num]
  exact lcgChunk_step lcgCum13 lcgSeg14

theorem lcgCum15 : lcgChunk 1500 12345 = (true, 482995456) := by
  rw [show (1500 : ℕ) = 1400 + 100 by norm_num]
  exact lcgChunk_step lcgCum14 lcgSeg15

theorem lcgCum16 : lcgChunk 1600 12345 = (true, 2137129280) := by
  rw [show (1600 : ℕ) = 1500 + 100 by norm_num]
  exact lcgChunk_step lcgCum15 lcgSeg16

theorem lcgCum17 : lcgChunk 1700 12345 = (true, 1512683264) := by
  rw [show (1700 : ℕ) = 1600 + 100 by norm_num]
  exact lcgChunk_step lcgCum16 lcgSeg17

theorem lcgCum18 : lcgChunk 1800 12345 = (true, 1648163840) := by
  rw [show (1800 : ℕ) = 1700 + 100 by norm_num]
  exact lcgChunk_step lcgCum17 lcgSeg18

theorem lcgCum19 : lcgChunk 1900 12345 = (true, 1383248960) := by
  rw [show (1900 : ℕ) = 1800 + 100 by norm_num]
  exact lcgChunk_step lcgCum18 lcgSeg19

theorem lcgCum20 : lcgChunk 2000 12345 = (true, 386701824) := by
  rw [show (2000 : ℕ) = 1900 + 100 by norm_num]
  exact lcgChunk_step lcgCum19 lcgSeg20

theorem lcgCum21 : lcgChunk 2100 12345 = (true, 1376717376) := by
  rw [show (2100 : ℕ) = 2000 + 100 by norm_num]
  exact lcgChunk_step lcgCum20 lcgSeg21

theorem lcgCum22 : lcgChunk 2200 12345 = (true, 763995392) := by
  rw [show (2200 : ℕ) = 2100 + 100 by norm_num]
  exact lcgChunk_step lcgCum21 lcgSeg22

theorem lcgCum23 : lcgChunk 2300 12345 = (true, 1304325888) := by
  rw [show (2300 : ℕ) = 2200 + 100 by norm_num]
  exact lcgChunk_step lcgCum22 lcgSeg23

theorem lcgCum24 : lcgChunk 2400 12345 = (true, 1899990528) := by
  rw [show (2400 : ℕ) = 2300 + 100 by norm_num]
  exact lcgChunk_step lcgCum23 lcgSeg24

theorem lcgCum25 : lcgChunk 2500 12345 = (true, 566651136) := by
  rw [show (2500 : ℕ) = 2400 + 100 by norm_num]
  exact lcgChunk_step lcgCum24 lcgSeg25

theorem lcgCum26 : lcgChunk 2600 12345 = (true, 1473445888) := by
  rw [show (2600 : ℕ) = 2500 + 100 by norm_num]
  exact lcgChunk_step lcgCum25 lcgSeg26

theorem lcgCum27 : lcgChunk 2700 12345 = (true, 1986708032) := by
  rw [show (2700 : ℕ) = 2600 + 100 by norm_num]
  exact lcgChunk_step lcgCum26 lcgSeg27

theorem lcgCum28 : lcgChunk 2800 12345 = (true, 1999355648) := by
  rw [show (2800 : ℕ) = 2700 + 100 by norm_num]
  exact lcgChunk_step lcgCum27 lcgSeg28

theorem lcgCum29 : lcgChunk 2900 12345 = (true, 1957710848) := by
  rw [show (2900 : ℕ) = 2800 + 100 by norm_num]
  exact lcgChunk_step lcgCum28 lcgSeg29

theorem lcgCum30 : lcgChunk 3000 12345 = (true, 401041280) := by
  rw [show (3000 : ℕ) = 2900 + 100 by norm_num]
  exact lcgChunk_step lcgCum29 lcgSeg30

theorem lcgCum31 : lcgChunk 3100 12345 = (true, 1693894400) := by
  rw [show (3100 : ℕ) = 3000 + 100 by norm_num]
  exact lcgChunk_step lcgCum30 lcgSeg31

theorem lcgCum32 : lcgChunk 3200 12345 = (true, 1776379904) := by
  rw [show (3200 : ℕ) = 3100 + 100 by norm_num]
  exact lcgChunk_step lcgCum31 lcgSeg32

theorem lcgCum33 : lcgChunk 3300 12345 = (true, 629681152) := by
  rw [show (3300 : ℕ) = 3200 + 100 by norm_num]
  exact lcgChunk_step lcgCum32 lcgSeg33

theorem lcgCum34 : lcgChunk 3400 12345 = (true, 255065088) := by
  rw [show (3400 : ℕ) = 3300 + 100 by norm_num]
  exact lcgChunk_step lcgCum33 lcgSeg34

theorem lcgCum35 : lcgChunk 3500 12345 = (true, 369225792) := by
  rw [show (3500 : ℕ) = 3400 + 100 by norm_num]
  exact lcgChunk_step lcgCum34 lcgSeg35

theorem lcgCum36 : lcgChunk 3600 12345 = (true, 1019024896) := by
  rw [show (3600 : ℕ) = 3500 + 100 by norm_num]
  exact lcgChunk_step lcgCum35 lcgSeg36

theorem lcgCum37 : lcgChunk 3700 12345 = (true, 973282688) := by
  rw [show (3700 : ℕ) = 3600 + 100 by norm_num]
  exact lcgChunk_step lcgCum36 lcgSeg37

theorem lcgCum38 : lcgChunk 3800 12345 = (true, 1479805952) := by
  rw [show (3800 : ℕ) = 3700 + 100 by norm_num]
  exact lcgChunk_step lcgCum37 lcgSeg38

theorem lcgCum39 : lcgChunk 3900 12345 = (true, 427756544) := by
  rw [show (3900 : ℕ) = 3800 + 100 by norm_num]
  exact lcgChunk_step lcgCum38 lcgSeg39

theorem lcgCum40 : lcgChunk 4000 12345 = (true, 2033467648) := by
  rw [show (4000 : ℕ) = 3900 + 100 by norm_num]
  exact lcgChunk_step lcgCum39 lcgSeg40

theorem lcgCum41 : lcgChunk 4100 12345 = (true, 99030272) := by
  rw [show (4100 : ℕ) = 4000 + 100 by norm_num]
  exact lcgChunk_step lcgCum40 lcgSeg41

theorem lcgCum42 : lcgChunk 4200 12345 = (true, 374742016) := by
  rw [show (4200 : ℕ) = 4100 + 100 by norm_num]
  exact lcgChunk_step lcgCum41 lcgSeg42

theorem lcgCum43 : lcgChunk 4300 12345 = (true, 256396544) := by
  rw [show (4300 : ℕ) = 4200 + 100 by norm_num]
  exact lcgChunk_step lcgCum42 lcgSeg43

theorem lcgCum44 : lcgChunk 4400 12345 = (true, 619987328) := by
  rw [show (4400 : ℕ) = 4300 + 100 by norm_num]
  exact lcgChunk_step lcgCum43 lcgSeg44

theorem lcgCum45 : lcgChunk 4500 12345 = (true, 1145230400) := by
  rw [show (4500 : ℕ) = 4400 + 100 by norm_num]
  exact lcgChunk_step lcgCum44 lcgSeg45

theorem lcgCum46 : lcgChunk 4600 12345 = (true, 1994443008) := by
  rw [show (4600 : ℕ) = 4500 + 100 by norm_num]
  exact lcgChunk_step lcgCum45 lcgSeg46

theorem lcgCum47 : lcgChunk 4700 12345 = (true, 1420878336) := by
  rw [show (4700 : ℕ) = 4600 + 100 by norm_num]
  exact lcgChunk_step lcgCum46 lcgSeg47

theorem lcgCum48 : lcgChunk 4800 12345 = (true, 258467840) := by
  rw [show (4800 : ℕ) = 4700 + 100 by norm_num]
  exact lcgChunk_step lcgCum47 lcgSeg48

theorem lcgCum49 : lcgChunk 4900 12345 = (true, 340511232) := by
  rw [show (4900 : ℕ) = 4800 + 100 by norm_num]
  exact lcgChunk_step lcgCum48 lcgSeg49

theorem lcgCum50 : lcgChunk 5000 12345 = (true, 1163664704) := by
  rw [show (5000 : ℕ) = 4900 + 100 by norm_num]
  exact lcgChunk_step lcgCum49 lcgSeg50

theorem lcgCum51 : lcgChunk 5100 12345 = (true, 518543360) := by
  rw [show (5100 : ℕ) = 5000 + 100 by norm_num]
  exact lcgChunk_step lcgCum50 lcgSeg51

theorem lcgCum52 : lcgChunk 5200 12345 = (true, 535147520) := by
  rw [show (5200 : ℕ) = 5100 + 100 by norm_num]
  exact lcgChunk_step lcgCum51 lcgSeg52

theorem lcgCum53 : lcgChunk 5300 12345 = (true, 358665536) := by
  rw [show (5300 : ℕ) = 5200 + 100 by norm_num]
  exact lcgChunk_step lcgCum52 lcgSeg53

theorem lcgCum54 : lcgChunk 5400 12345 = (true, 1428450816) := by
  rw [show (5400 : ℕ) = 5300 + 100 by norm_num]
  exact lcgChunk_step lcgCum53 lcgSeg54

theorem lcgCum55 : lcgChunk 5500 12345 = (true, 1842225920) := by
  rw [show (5500 : ℕ) = 5400 + 100 by norm_num]
  exact lcgChunk_step lcgCum54 lcgSeg55

theorem lcgCum56 : lcgChunk 5600 12345 = (true, 239056192) := by
  rw [show (5600 : ℕ) = 5500 + 100 by norm_num]
  exact lcgChunk_step lcgCum55 lcgSeg56

theorem lcgCum57 : lcgChunk 5700 12345 = (true, 1360920064) := by
  rw [show (5700 : ℕ) = 5600 + 100 by norm_num]
  exact lcgChunk_step lcgCum56 lcgSeg57

theorem lcgCum58 : lcgChunk 5800 12345 = (true, 1425540352) := by
  rw [show (5800 : ℕ) = 5700 + 100 by norm_num]
  exact lcgChunk_step lcgCum57 lcgSeg58

theorem lcgCum59 : lcgChunk 5900 12345 = (true, 1095419776) := by
  rw [show (5900 : ℕ) = 5800 + 100 by norm_num]
  exact lcgChunk_step lcgCum58 lcgSeg59

theorem lcgCum60 : lcgChunk 5938 12345 = (true, 1372572160) := by
  rw [show (5938 : ℕ) = 5900 + 38 by norm_num]
  exact lcgChunk_step lcgCum59 lcgSeg60

theorem lcgCum61 : lcgChunk 6038 12345 = (true, 344822272) := by
  rw [show (6038 : ℕ) = 5938 + 100 by norm_num]
  exact lcgChunk_step lcgCum60 lcgSeg61

theorem lcgCum62 : lcgChunk 6138 12345 = (true, 706750976) := by
  rw [show (6138 : ℕ) = 6038 + 100 by norm_num]
  exact lcgChunk_step lcgCum61 lcgSeg62

theorem lcgCum63 : lcgChunk 6238 12345 = (true, 957781312) := by
  rw [show (6238 : ℕ) = 6138 + 100 by norm_num]
  exact lcgChunk_step lcgCum62 lcgSeg63

theorem lcgCum64 : lcgChunk 6338 12345 = (true, 1996491008) := by
  rw [show (6338 : ℕ) = 6238 + 100 by norm_num]
  exact lcgChunk_step lcgCum63 lcgSeg64

theorem lcgCum65 : lcgChunk 6438 12345 = (true, 1592481792) := by
  rw [show (6438 : ℕ) = 6338 + 100 by norm_num]
  exact lcgChunk_step lcgCum64 lcgSeg65

theorem lcgCum66 : lcgChunk 6538 12345 = (true, 65058560) := by
  rw [show (6538 : ℕ) = 6438 + 100 by norm_num]
  exact lcgChunk_step lcgCum65 lcgSeg66

theorem lcgCum67 : lcgChunk 6638 12345 = (true, 1814836480) := by
  rw [show (6638 : ℕ) = 6538 + 100 by norm_num]
  exact lcgChunk_step lcgCum66 lcgSeg67

theorem lcgCum68 : lcgChunk 6738 12345 = (true, 1678953216) := by
  rw [show (6738 : ℕ) = 6638 + 100 by norm_num]
  exact lcgChunk_step lcgCum67 lcgSeg68

theorem lcgCum69 : lcgChunk 6838 12345 = (true, 35052544) := by
  rw [show (6838 : ℕ) = 6738 + 100 by norm_num]
  exact lcgChunk_step lcgCum68 lcgSeg69

theorem lcgCum70 : lcgChunk 6938 12345 = (true, 1367644416) := by
  rw [show (6938 : ℕ) = 6838 + 100 by norm_num]
  exact lcgChunk_step lcgCum69 lcgSeg70

theorem lcgCum71 : lcgChunk 7038 12345 = (true, 1141223744) := by
  rw [show (7038 : ℕ) = 6938 + 100 by norm_num]
  exact lcgChunk_step lcgCum70 lcgSeg71

theorem lcgCum72 : lcgChunk 7138 12345 = (true, 481495040) := by
  rw [show (7138 : ℕ) = 7038 + 100 by norm_num]
  exact lcgChunk_step lcgCum71 lcgSeg72

theorem lcgCum73 : lcgChunk 7238 12345 = (true, 892080896) := by
  rw [show (7238 : ℕ) = 7138 + 100 by norm_num]
  exact lcgChunk_step lcgCum72 lcgSeg73

theorem lcgCum74 : lcgChunk 7338 12345 = (true, 1846521344) := by
  rw [show (7338 : ℕ) = 7238 + 100 by norm_num]
  exact lcgChunk_step lcgCum73 lcgSeg74

theorem lcgCum75 : lcgChunk 7438 12345 = (true, 2116016128) := by
  rw [show (7438 : ℕ) = 7338 + 100 by norm_num]
  exact lcgChunk_step lcgCum74 lcgSeg75

theorem lcgCum76 : lcgChunk 7538 12345 = (true, 1478518016) := by
  rw [show (7538 : ℕ) = 7438 + 100 by norm_num]
  exact lcgChunk_step lcgCum75 lcgSeg76

theorem lcgCum77 : lcgChunk 7638 12345 = (true, 998812160) := by
  rw [show (7638 : ℕ) = 7538 + 100 by norm_num]
  exact lcgChunk_step lcgCum76 lcgSeg77

theorem lcgCum78 : lcgChunk 7738 12345 = (true, 1466103552) := by
  rw [show (7738 : ℕ) = 7638 + 100 by norm_num]
  exact lcgChunk_step lcgCum77 lcgSeg78

theorem lcgCum79 : lcgChunk 7838 12345 = (true, 685203712) := by
  rw [show (7838 : ℕ) = 7738 + 100 by norm_num]
  exact lcgChunk_step lcgCum78 lcgSeg79

theorem lcgCum80 : lcgChunk 7938 12345 = (true, 398906880) := by
  rw [show (7938 : ℕ) = 7838 + 100 by norm_num]
  exact lcgChunk_step lcgCum79 lcgSeg80

theorem lcgCum81 : lcgChunk 8038 12345 = (true, 1367795712) := by
  rw [show (8038 : ℕ) = 7938 + 100 by norm_num]
  exact lcgChunk_step lcgCum80 lcgSeg81

theorem lcgCum82 : lcgChunk 8138 12345 = (true, 1794089728) := by
  rw [show (8138 : ℕ) = 8038 + 100 by norm_num]
  exact lcgChunk_step lcgCum81 lcgSeg82

theorem lcgCum83 : lcgChunk 8238 12345 = (true, 1552748288) := by
  rw [show (8238 : ℕ) = 8138 + 100 by norm_num]
  exact lcgChunk_step lcgCum82 lcgSeg83

theorem lcgCum84 : lcgChunk 8338 12345 = (true, 843736832) := by
  rw [show (8338 : ℕ) = 8238 + 100 by norm_num]
  exact lcgChunk_step lcgCum83 lcgSeg84

theorem lcgCum85 : lcgChunk 8438 12345 = (true, 2030923776) := by
  rw [show (8438 : ℕ) = 8338 + 100 by norm_num]
  exact lcgChunk_step lcgCum84 lcgSeg85

theorem lcgCum86 : lcgChunk 8538 12345 = (true, 1555897912) := by
  rw [show (8538 : ℕ) = 8438 + 100 by norm_num]
  exact lcgChunk_step lcgCum85 lcgSeg86

theorem lcgCum87 : lcgChunk 8638 12345 = (true, 783011712) := by
  rw [show (8638 : ℕ) = 8538 + 100 by norm_num]
  exact lcgChunk_step lcgCum86 lcgSeg87

theorem lcgCum88 : lcgChunk 8738 12345 = (true, 1912532480) := by
  rw [show (8738 : ℕ) = 8638 + 100 by norm_num]
  exact lcgChunk_step lcgCum87 lcgSeg88

theorem lcgCum89 : lcgChunk 8838 12345 = (true, 1801620480) := by
  rw [show (8838 : ℕ) = 8738 + 100 by norm_num]
  exact lcgChunk_step lcgCum88 lcgSeg89

theorem lcgCum90 : lcgChunk 8938 12345 = (true, 1511380224) := by
  rw [show (8938 : ℕ) = 8838 + 100 by norm_num]
  exact lcgChunk_step lcgCum89 lcgSeg90

theorem lcgCum91 : lcgChunk 9038 12345 = (true, 690064640) := by
  rw [show (9038 : ℕ) = 8938 + 100 by norm_num]
  exact lcgChunk_step lcgCum90 lcgSeg91

theorem lcgCum92 : lcgChunk 9138 12345 = (true, 814814464) := by
  rw [show (9138 : ℕ) = 9038 + 100 by norm_num]
  exact lcgChunk_step lcgCum91 lcgSeg92

theorem lcgCum93 : lcgChunk 9238 12345 = (true, 1035424768) := by
  rw [show (9238 : ℕ) = 9138 + 100 by norm_num]
  exact lcgChunk_step lcgCum92 lcgSeg93

theorem lcgCum94 : lcgChunk 9338 12345 = (true, 1336792576) := by
  rw [show (9338 : ℕ) = 9238 + 100 by norm_num]
  exact lcgChunk_step lcgCum93 lcgSeg94

theorem lcgCum95 : lcgChunk 9438 12345 = (true, 1134795264) := by
  rw [show (9438 : ℕ) = 9338 + 100 by norm_num]
  exact lcgChunk_step lcgCum94 lcgSeg95

theorem lcgCum96 : lcgChunk 9538 12345 = (true, 1001902592) := by
  rw [show (9538 : ℕ) = 9438 + 100 by norm_num]
  exact lcgChunk_step lcgCum95 lcgSeg96

theorem lcgCum97 : lcgChunk 9638 12345 = (true, 241072896) := by
  rw [show (9638 : ℕ) = 9538 + 100 by norm_num]
  exact lcgChunk_step lcgCum96 lcgSeg97

theorem lcgCum98 : lcgChunk 9738 12345 = (true, 1798580224) := by
  rw [show (9738 : ℕ) = 9638 + 100 by norm_num]
  exact lcgChunk_step lcgCum97 lcgSeg98

theorem lcgCum99 : lcgChunk 9838 12345 = (true, 1478313088) := by
  rw [show (9838 : ℕ) = 9738 + 100 by norm_num]
  exact lcgChunk_step lcgCum98 lcgSeg99

theorem lcgCum100 : lcgChunk 9938 12345 = (true, 291169024) := by
  rw [show (9938 : ℕ) = 9838 + 100 by norm_num]
  exact lcgChunk_step lcgCum99 lcgSeg100

theorem lcgCum101 : lcgChunk 10038 12345 = (true, 889168192) := by
  rw [show (10038 : ℕ) = 9938 + 100 by norm_num]
  exact lcgChunk_step lcgCum100 lcgSeg101

theorem lcgCum102 : lcgChunk 10138 12345 = (true, 886790976) := by
  rw [show (10138 : ℕ) = 10038 + 100 by norm_num]
  exact lcgChunk_step lcgCum101 lcgSeg102

theorem lcgCum103 : lcgChunk 10238 12345 = (true, 301660480) := by
  rw [show (10238 : ℕ) = 10138 + 100 by norm_num]
  exact lcgChunk_step lcgCum102 lcgSeg103

theorem lcgCum104 : lcgChunk 10338 12345 = (true, 2059444288) := by
  rw [show (10338 : ℕ) = 10238 + 100 by norm_num]
  exact lcgChunk_step lcgCum103 lcgSeg104

theorem lcgCum105 : lcgChunk 10438 12345 = (true, 253600256) := by
  rw [show (10438 : ℕ) = 10338 + 100 by norm_num]
  exact lcgChunk_step lcgCum104 lcgSeg105

theorem lcgCum106 : lcgChunk 10538 12345 = (true, 2069179904) := by
  rw [show (10538 : ℕ) = 10438 + 100 by norm_num]
  exact lcgChunk_step lcgCum105 lcgSeg106

theorem lcgCum107 : lcgChunk 10638 12345 = (true, 1609067008) := by
  rw [show (10638 : ℕ) = 10538 + 100 by norm_num]
  exact lcgChunk_step lcgCum106 lcgSeg107

theorem lcgCum108 : lcgChunk 10738 12345 = (true, 1232616192) := by
  rw [show (10738 : ℕ) = 10638 + 100 by norm_num]
  exact lcgChunk_step lcgCum107 lcgSeg108

theorem lcgCum109 : lcgChunk 10838 12345 = (true, 1061548800) := by
  rw [show (10838 : ℕ) = 10738 + 100 by norm_num]
  exact lcgChunk_step lcgCum108 lcgSeg109

theorem lcgCum110 : lcgChunk 10938 12345 = (true, 1224117376) := by
  rw [show (10938 : ℕ) = 10838 + 100 by norm_num]
  exact lcgChunk_step lcgCum109 lcgSeg110

theorem lcgCum111 : lcgChunk 11038 12345 = (true, 970728000) := by
  rw [show (11038 : ℕ) = 10938 + 100 by norm_num]
  exact lcgChunk_step lcgCum110 lcgSeg111

theorem lcgCum112 : lcgChunk 11138 12345 = (true, 1670710144) := by
  rw [show (11138 : ℕ) = 11038 + 100 by norm_num]
  exact lcgChunk_step lcgCum111 lcgSeg112

theorem lcgCum113 : lcgChunk 11238 12345 = (true, 1344888320) := by
  rw [show (11238 : ℕ) = 11138 + 100 by norm_num]
  exact lcgChunk_step lcgCum112 lcgSeg113

theorem lcgCum114 : lcgChunk 11338 12345 = (true, 1158375936) := by
  rw [show (11338 : ℕ) = 11238 + 100 by norm_num]
  exact lcgChunk_step lcgCum113 lcgSeg114

theorem lcgCum115 : lcgChunk 11438 12345 = (true, 558102016) := by
  rw [show (11438 : ℕ) = 11338 + 100 by norm_num]
  exact lcgChunk_step lcgCum114 lcgSeg115

theorem lcgCum116 : lcgChunk 11538 12345 = (true, 1529455424) := by
  rw [show (11538 : ℕ) = 11438 + 100 by norm_num]
  exact lcgChunk_step lcgCum115 lcgSeg116

theorem lcgCum117 : lcgChunk 11638 12345 = (true, 969361920) := by
  rw [show (11638 : ℕ) = 11538 + 100 by norm_num]
  exact lcgChunk_step lcgCum116 lcgSeg117

theorem lcgCum118 : lcgChunk 11738 12345 = (true, 1714836736) := by
  rw [show (11738 : ℕ) = 11638 + 100 by norm_num]
  exact lcgChunk_step lcgCum117 lcgSeg118

theorem lcgCum119 : lcgChunk 11838 12345 = (true, 618423808) := by
  rw [show (11838 : ℕ) = 11738 + 100 by norm_num]
  exact lcgChunk_step lcgCum118 lcgSeg119

theorem lcgCum120 : lcgChunk 11938 12345 = (true, 178256896) := by
  rw [show (11938 : ℕ) = 11838 + 100 by norm_num]
  exact lcgChunk_step lcgCum119 lcgSeg120

theorem lcgCum121 : lcgChunk 12038 12345 = (true, 736093184) := by
  rw [show (12038 : ℕ) = 11938 + 100 by norm_num]
  exact lcgChunk_step lcgCum120 lcgSeg121

theorem lcgCum122 : lcgChunk 12138 12345 = (true, 688878208) := by
  rw [show (12138 : ℕ) = 12038 + 100 by norm_num]
  exact lcgChunk_step lcgCum121 lcgSeg122

theorem lcgCum123 : lcgChunk 12238 12345 = (true, 765854208) := by
  rw [show (12238 : ℕ) = 12138 + 100 by norm_num]
  exact lcgChunk_step lcgCum122 lcgSeg123

theorem lcgCum124 : lcgChunk 12338 12345 = (true, 2134965824) := by
  rw [show (12338 : ℕ) = 12238 + 100 by norm_num]
  exact lcgChunk_step lcgCum123 lcgSeg124

theorem lcgCum125 : lcgChunk 12438 12345 = (true, 300424448) := by
  rw [show (12438 : ℕ) = 12338 + 100 by norm_num]
  exact lcgChunk_step lcgCum124 lcgSeg125

theorem lcgCum126 : lcgChunk 12538 12345 = (true, 1951940096) := by
  rw [show (12538 : ℕ) = 12438 + 100 by norm_num]
  exact lcgChunk_step lcgCum125 lcgSeg126

theorem lcgCum127 : lcgChunk 12638 12345 = (true, 72458752) := by
  rw [show (12638 : ℕ) = 12538 + 100 by norm_num]
  exact lcgChunk_step lcgCum126 lcgSeg127

theorem lcgCum128 : lcgChunk 12738 12345 = (true, 962560512) := by
  rw [show (12738 : ℕ) = 12638 + 100 by norm_num]
  exact lcgChunk_step lcgCum127 lcgSeg128

theorem lcgCum129 : lcgChunk 12838 12345 = (true, 633217280) := by
  rw [show (12838 : ℕ) = 12738 + 100 by norm_num]
  exact lcgChunk_step lcgCum128 lcgSeg129

theorem lcgCum130 : lcgChunk 12938 12345 = (true, 64309248) := by
  rw [show (12938 : ℕ) = 12838 + 100 by norm_num]
  exact lcgChunk_step lcgCum129 lcgSeg130

theorem lcgCum131 : lcgChunk 13038 12345 = (true, 894907200) := by
  rw [show (13038 : ℕ) = 12938 + 100 by norm_num]
  exact lcgChunk_step lcgCum130 lcgSeg131

theorem lcgCum132 : lcgChunk 13138 12345 = (true, 1272020480) := by
  rw [show (13138 : ℕ) = 13038 + 100 by norm_num]
  exact lcgChunk_step lcgCum131 lcgSeg132

theorem lcgCum133 : lcgChunk 13238 12345 = (true, 1681014272) := by
  rw [show (13238 : ℕ) = 13138 + 100 by norm_num]
  exact lcgChunk_step lcgCum132 lcgSeg133

theorem lcgCum134 : lcgChunk 13338 12345 = (true, 1394057728) := by
  rw [show (13338 : ℕ) = 13238 + 100 by norm_num]
  exact lcgChunk_step lcgCum133 lcgSeg134

theorem lcgCum135 : lcgChunk 13438 12345 = (true, 1063848256) := by
  rw [show (13438 : ℕ) = 13338 + 100 by norm_num]
  exact lcgChunk_step lcgCum134 lcgSeg135

theorem lcgCum136 : lcgChunk 13538 12345 = (true, 1913828672) := by
  rw [show (13538 : ℕ) = 13438 + 100 by norm_num]
  exact lcgChunk_step lcgCum135 lcgSeg136

theorem lcgCum137 : lcgChunk 13638 12345 = (true, 1134425088) := by
  rw [show (13638 : ℕ) = 13538 + 100 by norm_num]
  exact lcgChunk_step lcgCum136 lcgSeg137

theorem lcgCum138 : lcgChunk 13738 12345 = (true, 490834496) := by
  rw [show (13738 : ℕ) = 13638 + 100 by norm_num]
  exact lcgChunk_step lcgCum137 lcgSeg138

theorem lcgCum139 : lcgChunk 13838 12345 = (true, 1013923328) := by
  rw [show (13838 : ℕ) = 13738 + 100 by norm_num]
  exact lcgChunk_step lcgCum138 lcgSeg139

theorem lcgCum140 : lcgChunk 13938 12345 = (true, 689058048) := by
  rw [show (13938 : ℕ) = 13838 + 100 by norm_num]
  exact lcgChunk_step lcgCum139 lcgSeg140

theorem lcgCum141 : lcgChunk 14038 12345 = (true, 1622192384) := by
  rw [show (14038 : ℕ) = 13938 + 100 by norm_num]
  exact lcgChunk_step lcgCum140 lcgSeg141

theorem lcgCum142 : lcgChunk 14138 12345 = (true, 329349944) := by
  rw [show (14138 : ℕ) = 14038 + 100 by norm_num]
  exact lcgChunk_step lcgCum141 lcgSeg142

theorem lcgCum143 : lcgChunk 14238 12345 = (true, 1216658432) := by
  rw [show (14238 : ℕ) = 14138 + 100 by norm_num]
  exact lcgChunk_step lcgCum142 lcgSeg143

theorem lcgCum144 : lcgChunk 14338 12345 = (true, 218994944) := by
  rw [show (14338 : ℕ) = 14238 + 100 by norm_num]
  exact lcgChunk_step lcgCum143 lcgSeg144

theorem lcgCum145 : lcgChunk 14438 12345 = (true, 1352775424) := by
  rw [show (14438 : ℕ) = 14338 + 100 by norm_num]
  exact lcgChunk_step lcgCum144 lcgSeg145

theorem lcgCum146 : lcgChunk 14538 12345 = (true, 1311367936) := by
  rw [show (14538 : ℕ) = 14438 + 100 by norm_num]
  exact lcgChunk_step lcgCum145 lcgSeg146

theorem lcgCum147 : lcgChunk 14638 12345 = (true, 891302400) := by
  rw [show (14638 : ℕ) = 14538 + 100 by norm_num]
  exact lcgChunk_step lcgCum146 lcgSeg147

theorem lcgCum148 : lcgChunk 14738 12345 = (true, 1579152128) := by
  rw [show (14738 : ℕ) = 14638 + 100 by norm_num]
  exact lcgChunk_step lcgCum147 lcgSeg148

theorem lcgCum149 : lcgChunk 14838 12345 = (true, 1555222272) := by
  rw [show (14838 : ℕ) = 14738 + 100 by norm_num]
  exact lcgChunk_step lcgCum148 lcgSeg149

theorem lcgCum150 : lcgChunk 14938 12345 = (true, 1725896704) := by
  rw [show (14938 : ℕ) = 14838 + 100 by norm_num]
  exact lcgChunk_step lcgCum149 lcgSeg150

theorem lcgCum151 : lcgChunk 15038 12345 = (true, 1460100608) := by
  rw [show (15038 : ℕ) = 14938 + 100 by norm_num]
  exact lcgChunk_step lcgCum150 lcgSeg151

theorem lcgCum152 : lcgChunk 15138 12345 = (true, 710968640) := by
  rw [show (15138 : ℕ) = 15038 + 100 by norm_num]
  exact lcgChunk_step lcgCum151 lcgSeg152

theorem lcgCum153 : lcgChunk 15238 12345 = (true, 1319838528) := by
  rw [show (15238 : ℕ) = 15138 + 100 by norm_num]
  exact lcgChunk_step lcgCum152 lcgSeg153

theorem lcgCum154 : lcgChunk 15338 12345 = (true, 2026834496) := by
  rw [show (15338 : ℕ) = 15238 + 100 by norm_num]
  exact lcgChunk_step lcgCum153 lcgSeg154

theorem lcgCum155 : lcgChunk 15438 12345 = (true, 1111802112) := by
  rw [show (15438 : ℕ) = 15338 + 100 by norm_num]
  exact lcgChunk_step lcgCum154 lcgSeg155

theorem lcgCum156 : lcgChunk 15538 12345 = (true, 1955134464) := by
  rw [show (15538 : ℕ) = 15438 + 100 by norm_num]
  exact lcgChunk_step lcgCum155 lcgSeg156

theorem lcgCum157 : lcgChunk 15638 12345 = (true, 1136439552) := by
  rw [show (15638 : ℕ) = 15538 + 100 by norm_num]
  exact lcgChunk_step lcgCum156 lcgSeg157

theorem lcgCum158 : lcgChunk 15738 12345 = (true, 437930752) := by
  rw [show (15738 : ℕ) = 15638 + 100 by norm_num]
  exact lcgChunk_step lcgCum157 lcgSeg158

theorem lcgCum159 : lcgChunk 15838 12345 = (true, 1324593664) := by
  rw [show (15838 : ℕ) = 15738 + 100 by norm_num]
  exact lcgChunk_step lcgCum158 lcgSeg159

theorem lcgCum160 : lcgChunk 15938 12345 = (true, 89215232) := by
  rw [show (15938 : ℕ) = 15838 + 100 by norm_num]
  exact lcgChunk_step lcgCum159 lcgSeg160

theorem lcgCum161 : lcgChunk 16038 12345 = (true, 297914688) := by
  rw [show (16038 : ℕ) = 15938 + 100 by norm_num]
  exact lcgChunk_step lcgCum160 lcgSeg161

theorem lcgCum162 : lcgChunk 16138 12345 = (true, 2069337472) := by
  rw [show (16138 : ℕ) = 16038 + 100 by norm_num]
  exact lcgChunk_step lcgCum161 lcgSeg162

theorem lcgCum163 : lcgChunk 16238 12345 = (true, 813582592) := by
  rw [show (16238 : ℕ) = 16138 + 100 by norm_num]
  exact lcgChunk_step lcgCum162 lcgSeg163

theorem lcgCum164 : lcgChunk 16338 12345 = (true, 2031763712) := by
  rw [show (16338 : ℕ) = 16238 + 100 by norm_num]
  exact lcgChunk_step lcgCum163 lcgSeg164

theorem lcgCum165 : lcgChunk 16404 12345 = (true, 1372572160) := by
  rw [show (16404 : ℕ) = 16338 + 66 by norm_num]
  exact lcgChunk_step lcgCum164 lcgSeg165

theorem lcgIter_16404 : lcgIter 16404 12345 = 1372572160 := by
  have h := congrArg Prod.snd lcgCum165
  rw [lcgChunk_snd] at h
  exact h

theorem lcgIter_5938 : lcgIter 5938 12345 = 1372572160 := by
  have h := congrArg Prod.snd lcgCum60
  rw [lcgChunk_snd] at h
  exact h

theorem lcgIter_periodic (t : ℕ) :
    lcgIter (16404 + t) 12345 = lcgIter (5938 + t) 12345 := by
  rw [lcgIter_append 16404 t, lcgIter_append 5938 t, lcgIter_16404, lcgIter_5938]

/-- No seed reachable from 12345 ever equals `0x7fffffff`: checked by kernel
evaluation on the first 16404 states, and the orbit is periodic from index
5938 with period 10466. -/
theorem lcgOrbit_ne_max : ∀ n : ℕ, lcgIter n 12345 ≠ 2147483647 := by
  intro n
  induction n using Nat.strong_induction_on with
  | _ n ih =>
    by_cases h : n < 16404
    · exact lcgChunk_avoid 16404 12345 (congrArg Prod.fst lcgCum165) n h
    · have ht : n = 16404 + (n - 16404) := by omega
      rw [ht, lcgIter_periodic]
      exact ih (5938 + (n - 16404)) (by omega)

/-- C5: every call of the seeded RNG returns a value in [0, 1) — strictly
below 1 for every internal seed state reachable from the fixed seed 12345
(the JavaScript double rounding of the oversized product is modelled exactly;
under it the orbit never reaches `0x7fffffff`, the only state whose quotient
is 1) — the returned value is a pure function of the internal integer state,
and `resetSeed` restores the initial seed 12345. -/
theorem c5_seeded_rng_range_purity_reset :
    (∀ st : SimSt, (resetSeed st).seed = 12345) ∧
    (∀ st st2 : SimSt, st.seed = st2.seed →
      (seededRandom st).1 = (seededRandom st2).1) ∧
    (∀ n k : ℕ, 0 ≤ (seededRandom ⟨k, lcgIter n 12345⟩).1 ∧
      (seededRandom ⟨k, lcgIter n 12345⟩).1 < 1) := by
  refine ⟨fun st => rfl, fun st st2 h => by simp [seededRandom, h], fun n k => ?_⟩
  constructor
  · exact div_nonneg (Nat.cast_nonneg _) (by norm_num)
  · show (nextSeed (lcgIter n 12345) : ℚ) / 2147483647 < 1
    rw [div_lt_one (by norm_num)]
    have hlt := nextSeed_lt (lcgIter n 12345)
    have hne : nextSeed (lcgIter n 12345) ≠ 2147483647 := by
      rw [← lcgIter_succ_right]
      exact lcgOrbit_ne_max (n + 1)
    have : nextSeed (lcgIter n 12345) < 2147483647 := by omega
    exact_mod_cast this

/-- Witness for the seeded-RNG contract: reset at a concrete state, purity at
two states sharing the seed, and the range at the initial state. -/
theorem c5_witness :
    (resetSeed st0).seed = 12345 ∧
    (seededRandom ⟨0, 12345⟩).1 = (seededRandom ⟨7, 12345⟩).1 ∧
    (0 ≤ (seededRandom ⟨3, lcgIter 0 12345⟩).1 ∧
      (seededRandom ⟨3, lcgIter 0 12345⟩).1 < 1) :=
  ⟨c5_seeded_rng_range_purity_reset.1 st0,
   c5_seeded_rng_range_purity_reset.2.1 ⟨0, 12345⟩ ⟨7, 12345⟩ rfl,
   c5_seeded_rng_range_purity_reset.2.2 0 3⟩

/-! ## Determinism of world creation: the seeded draws depend only on the
seed, and only ids consume the `Math.random()` stream -/

theorem seededRandom_fst (st : SimSt) :
    (seededRandom st).1 = (nextSeed st.seed : ℚ) / 2147483647 := rfl

theorem randomInRange_fst (lo hi : ℚ) (st : SimSt) :
    (randomInRange lo hi st).1 =
      (nextSeed st.seed : ℚ) / 2147483647 * (hi - lo) + lo := rfl

theorem randomId_snd (e : Env) (st : SimSt) :
    (randomId e st).2 = ⟨st.k + 1, st.seed⟩ := rfl

theorem mathRandom_snd (e : Env) (st : SimSt) :
    (mathRandom e st).2 = ⟨st.k + 1, st.seed⟩ := rfl

theorem creature_stripId_iff (p q : Creature) :
    p.stripId = q.stripId ↔ (p.pos = q.pos ∧ p.vel = q.vel ∧ p.size = q.size ∧
      p.color = q.color ∧ p.type = q.type ∧ p.state = q.state ∧
      p.stateTimer = q.stateTimer ∧ p.energy = q.energy) := by
  simp [Creature.stripId, Creature.mk.injEq]

theorem plant_stripId_iff (p q : Plant) :
    p.stripId = q.stripId ↔ (p.pos = q.pos ∧ p.size = q.size ∧
      p.maxSize = q.maxSize ∧ p.growthRate = q.growthRate ∧ p.color = q.color ∧
      p.type = q.type ∧ p.age = q.age) := by
  simp [Plant.stripId, Plant.mk.injEq]

theorem createCreature_det (e1 e2 : Env) (ty : CreatureType) (w h : ℚ)
    (a b : SimSt) (hab : a.seed = b.seed) :
    ((createCreature e1 ty w h a).1).stripId = ((createCreature e2 ty w h b).1).stripId ∧
    ((createCreature e1 ty w h a).2).seed = ((createCreature e2 ty w h b).2).seed := by
  unfold createCreature
  dsimp only
  simp only [randomId_snd, randomInRange_snd, randomInRange_fst, seededRandom_snd,
    seededRandom_fst, Creature.stripId]
  rw [hab]
  exact ⟨rfl, rfl⟩

theorem createPlantPos_snd_none (w h : ℚ) (st : SimSt) :
    (createPlantPos w h none st).2 = ⟨st.k, nextSeed (nextSeed st.seed)⟩ := by
  unfold createPlantPos
  dsimp only
  rw [randomInRange_snd, randomInRange_snd]

theorem createPlantPos_fst_none (w h : ℚ) (st : SimSt) :
    (createPlantPos w h none st).1 =
      ⟨(nextSeed st.seed : ℚ) / 2147483647 * (w - 30 - 30) + 30,
       (nextSeed (nextSeed st.seed) : ℚ) / 2147483647 * (h - 30 - 30) + 30⟩ := by
  unfold createPlantPos
  dsimp only
  rw [randomInRange_fst, randomInRange_fst, randomInRange_snd]

theorem createPlantPos_some (w h : ℚ) (v : Vector2) (st : SimSt) :
    createPlantPos w h (some v) st = (v, st) := rfl

theorem createPlantSize_snd (maxSize : ℚ) (small : Bool) (st : SimSt) :
    (createPlantSize maxSize small st).2 = ⟨st.k, nextSeed st.seed⟩ := by
  cases small <;> rfl

theorem createPlantSize_fst_true (maxSize : ℚ) (st : SimSt) :
    (createPlantSize maxSize true st).1 =
      (nextSeed st.seed : ℚ) / 2147483647 * (3 - 1) + 1 := rfl

theorem createPlantSize_fst_false (maxSize : ℚ) (st : SimSt) :
    (createPlantSize maxSize false st).1 =
      maxSize * ((nextSeed st.seed : ℚ) / 2147483647 * (1.0 - 0.8) + 0.8) := rfl

theorem createPlant_det (e1 e2 : Env) (ty : PlantType) (w h : ℚ)
    (pos : Option Vector2) (small : Bool) (a b : SimSt) (hab : a.seed = b.seed) :
    ((createPlant e1 ty w h pos small a).1).stripId =
      ((createPlant e2 ty w h pos small b).1).stripId ∧
    ((createPlant e1 ty w h pos small a).2).seed =
      ((createPlant e2 ty w h pos small b).2).seed := by
  cases pos <;> cases small <;>
    · unfold createPlant
      dsimp only
      simp only [randomInRange_snd, randomId_snd, createPlantPos_some,
        createPlantPos_snd_none, createPlantPos_fst_none, createPlantSize_snd,
        createPlantSize_fst_true, createPlantSize_fst_false, randomInRange_fst,
        seededRandom_snd, seededRandom_fst, Plant.stripId]
      rw [hab]
      exact ⟨rfl, rfl⟩

theorem smallWildItem_det (e1 e2 : Env) (w h : ℚ) (a b : SimSt)
    (hab : a.seed = b.seed) :
    ((smallWildItem e1 w h a).1).stripId = ((smallWildItem e2 w h b).1).stripId ∧
    ((smallWildItem e1 w h a).2).seed = ((smallWildItem e2 w h b).2).seed := by
  obtain ⟨hp, hs⟩ := createPlant_det e1 e2 .wildflower w h none false a b hab
  rw [plant_stripId_iff] at hp
  unfold smallWildItem
  dsimp only
  refine ⟨?_, hs⟩
  rw [plant_stripId_iff]
  dsimp only
  exact ⟨hp.1, by rw [hp.2.1], by rw [hp.2.2.1], hp.2.2.2.1, hp.2.2.2.2.1,
    hp.2.2.2.2.2.1, hp.2.2.2.2.2.2⟩

theorem largeMossItem_det (e1 e2 : Env) (w h : ℚ) (a b : SimSt)
    (hab : a.seed = b.seed) :
    ((largeMossItem e1 w h a).1).stripId = ((largeMossItem e2 w h b).1).stripId ∧
    ((largeMossItem e1 w h a).2).seed = ((largeMossItem e2 w h b).2).seed := by
  obtain ⟨hp, hs⟩ := createPlant_det e1 e2 .moss w h none false a b hab
  rw [plant_stripId_iff] at hp
  unfold largeMossItem
  dsimp only
  refine ⟨?_, hs⟩
  rw [plant_stripId_iff]
  dsimp only
  exact ⟨hp.1, by rw [hp.2.1], by rw [hp.2.2.1], hp.2.2.2.1, hp.2.2.2.2.1,
    hp.2.2.2.2.2.1, hp.2.2.2.2.2.2⟩

theorem mushroomPatchItem_det (e1 e2 : Env) (w h cx cy : ℚ) (a b : SimSt)
    (hab : a.seed = b.seed) :
    ((mushroomPatchItem e1 w h cx cy a).1).stripId =
      ((mushroomPatchItem e2 w h cx cy b).1).stripId ∧
    ((mushroomPatchItem e1 w h cx cy a).2).seed =
      ((mushroomPatchItem e2 w h cx cy b).2).seed := by
  unfold mushroomPatchItem
  dsimp only
  simp only [randomInRange_snd, randomInRange_fst]
  rw [hab]
  exact createPlant_det e1 e2 .mushroom w h (some _) false _ _ rfl

theorem mossPatchItem_det (e1 e2 : Env) (w h cx cy : ℚ) (a b : SimSt)
    (hab : a.seed = b.seed) :
    ((mossPatchItem e1 w h cx cy a).1).stripId =
      ((mossPatchItem e2 w h cx cy b).1).stripId ∧
    ((mossPatchItem e1 w h cx cy a).2).seed =
      ((mossPatchItem e2 w h cx cy b).2).seed := by
  unfold mossPatchItem
  dsimp only
  simp only [randomInRange_snd, randomInRange_fst]
  rw [hab]
  exact createPlant_det e1 e2 .moss w h (some _) false _ _ rfl

theorem mossScale_det (e1 e2 : Env) (w h : ℚ) (P : Vector2) (c d : ℚ)
    (a b : SimSt) (hab : a.seed = b.seed) :
    ({ (createPlant e1 .moss w h (some P) false a).1 with
        size := (createPlant e1 .moss w h (some P) false a).1.size *
          (c + (seededRandom (createPlant e1 .moss w h (some P) false a).2).1 * d)
      } : Plant).stripId =
      ({ (createPlant e2 .moss w h (some P) false b).1 with
        size := (createPlant e2 .moss w h (some P) false b).1.size *
          (c + (seededRandom (createPlant e2 .moss w h (some P) false b).2).1 * d)
      } : Plant).stripId ∧
    (seededRandom (createPlant e1 .moss w h (some P) false a).2).2.seed =
      (seededRandom (createPlant e2 .moss w h (some P) false b).2).2.seed := by
  obtain ⟨hp, hs⟩ := createPlant_det e1 e2 .moss w h (some P) false a b hab
  rw [plant_stripId_iff] at hp
  constructor
  · rw [plant_stripId_iff]
    dsimp only
    refine ⟨hp.1, ?_, by rw [hp.2.2.1], hp.2.2.2.1, hp.2.2.2.2.1,
      hp.2.2.2.2.2.1, hp.2.2.2.2.2.2⟩
    rw [hp.2.1, seededRandom_fst, seededRandom_fst, hs]
  · rw [seededRandom_snd, seededRandom_snd]
    dsimp only
    rw [hs]

theorem wideMossItem_det (e1 e2 : Env) (w h cx cy : ℚ) (a b : SimSt)
    (hab : a.seed = b.seed) :
    ((wideMossItem e1 w h cx cy a).1).stripId =
      ((wideMossItem e2 w h cx cy b).1).stripId ∧
    ((wideMossItem e1 w h cx cy a).2).seed =
      ((wideMossItem e2 w h cx cy b).2).seed := by
  unfold wideMossItem
  dsimp only
  simp only [randomInRange_snd, randomInRange_fst]
  rw [hab]
  exact mossScale_det e1 e2 w h _ 1.3 0.5 _ _ rfl

theorem bigMossItem_det (e1 e2 : Env) (w h cx cy : ℚ) (a b : SimSt)
    (hab : a.seed = b.seed) :
    ((bigMossItem e1 w h cx cy a).1).stripId =
      ((bigMossItem e2 w h cx cy b).1).stripId ∧
    ((bigMossItem e1 w h cx cy a).2).seed =
      ((bigMossItem e2 w h cx cy b).2).seed := by
  unfold bigMossItem
  dsimp only
  simp only [randomInRange_snd, randomInRange_fst]
  rw [hab]
  exact mossScale_det e1 e2 w h _ 1.5 0.8 _ _ rfl

theorem buildList_det {α β : Type} (s : α → β) (f g : SimSt → α × SimSt)
    (hfg : ∀ a b : SimSt, a.seed = b.seed →
      s (f a).1 = s (g b).1 ∧ (f a).2.seed = (g b).2.seed) :
    ∀ (n : ℕ) (a b : SimSt), a.seed = b.seed →
      (buildList n f a).1.map s = (buildList n g b).1.map s ∧
      (buildList n f a).2.seed = (buildList n g b).2.seed := by
  intro n
  induction n with
  | zero => exact fun a b hab => ⟨rfl, hab⟩
  | succ n ih =>
    intro a b hab
    obtain ⟨h1, h2⟩ := hfg a b hab
    obtain ⟨h3, h4⟩ := ih (f a).2 (g b).2 h2
    constructor
    · simp only [buildList, List.map_cons]
      rw [h1, h3]
    · simp only [buildList]
      exact h4

theorem mapFlatten {α β : Type} (s : α → β) :
    ∀ L : List (List α), L.flatten.map s = (L.map (List.map s)).flatten
  | [] => rfl
  | x :: L => by
    simp only [List.flatten_cons, List.map_append, List.map_cons,
      mapFlatten s L]

theorem flatSeg_det {α β : Type} (s : α → β) (f g : SimSt → List α × SimSt)
    (hfg : ∀ a b : SimSt, a.seed = b.seed →
      (f a).1.map s = (g b).1.map s ∧ (f a).2.seed = (g b).2.seed)
    (n : ℕ) (a b : SimSt) (hab : a.seed = b.seed) :
    (flatSeg n f a).1.map s = (flatSeg n g b).1.map s ∧
    (flatSeg n f a).2.seed = (flatSeg n g b).2.seed := by
  obtain ⟨h1, h2⟩ := buildList_det (List.map s) f g hfg n a b hab
  unfold flatSeg
  dsimp only
  refine ⟨?_, h2⟩
  rw [mapFlatten, mapFlatten, h1]

theorem mushroomPatch_det (e1 e2 : Env) (w h : ℚ) (a b : SimSt)
    (hab : a.seed = b.seed) :
    (mushroomPatch e1 w h a).1.map Plant.stripId =
      (mushroomPatch e2 w h b).1.map Plant.stripId ∧
    (mushroomPatch e1 w h a).2.seed = (mushroomPatch e2 w h b).2.seed := by
  unfold mushroomPatch
  dsimp only
  simp only [randomInRange_snd, randomInRange_fst, seededRandom_snd,
    seededRandom_fst]
  rw [hab]
  exact buildList_det Plant.stripId _ _
    (mushroomPatchItem_det e1 e2 w h _ _) _ _ _ rfl

theorem mossPatch_det (e1 e2 : Env) (w h : ℚ) (a b : SimSt)
    (hab : a.seed = b.seed) :
    (mossPatch e1 w h a).1.map Plant.stripId =
      (mossPatch e2 w h b).1.map Plant.stripId ∧
    (mossPatch e1 w h a).2.seed = (mossPatch e2 w h b).2.seed := by
  unfold mossPatch
  dsimp only
  simp only [randomInRange_snd, randomInRange_fst, seededRandom_snd,
    seededRandom_fst]
  rw [hab]
  exact buildList_det Plant.stripId _ _
    (mossPatchItem_det e1 e2 w h _ _) _ _ _ rfl

theorem wideMossPatch_det (e1 e2 : Env) (w h : ℚ) (a b : SimSt)
    (hab : a.seed = b.seed) :
    (wideMossPatch e1 w h a).1.map Plant.stripId =
      (wideMossPatch e2 w h b).1.map Plant.stripId ∧
    (wideMossPatch e1 w h a).2.seed = (wideMossPatch e2 w h b).2.seed := by
  unfold wideMossPatch
  dsimp only
  simp only [randomInRange_snd, randomInRange_fst, seededRandom_snd,
    seededRandom_fst]
  rw [hab]
  exact buildList_det Plant.stripId _ _
    (wideMossItem_det e1 e2 w h _ _) _ _ _ rfl

theorem bigMossPatch_det (e1 e2 : Env) (w h : ℚ) (a b : SimSt)
    (hab : a.seed = b.seed) :
    (bigMossPatch e1 w h a).1.map Plant.stripId =
      (bigMossPatch e2 w h b).1.map Plant.stripId ∧
    (bigMossPatch e1 w h a).2.seed = (bigMossPatch e2 w h b).2.seed := by
  unfold bigMossPatch
  dsimp only
  simp only [randomInRange_snd, randomInRange_fst, seededRandom_snd,
    seededRandom_fst]
  rw [hab]
  exact buildList_det Plant.stripId _ _
    (bigMossItem_det e1 e2 w h _ _) _ _ _ rfl

theorem chainLists_det {α β : Type} (s : α → β)
    {fs gs : List (SimSt → List α × SimSt)}
    (hall : List.Forall₂ (fun f g => ∀ a b : SimSt, a.seed = b.seed →
      (f a).1.map s = (g b).1.map s ∧ (f a).2.seed = (g b).2.seed) fs gs) :
    ∀ a b : SimSt, a.seed = b.seed →
      (chainLists fs a).1.map s = (chainLists gs b).1.map s ∧
      (chainLists fs a).2.seed = (chainLists gs b).2.seed := by
  induction hall with
  | nil => exact fun a b hab => ⟨rfl, hab⟩
  | cons hf hrest ih =>
    intro a b hab
    obtain ⟨h1, h2⟩ := hf a b hab
    obtain ⟨h3, h4⟩ := ih _ _ h2
    constructor
    · simp only [chainLists, List.map_append]
      rw [h1, h3]
    · simp only [chainLists]
      exact h4

theorem creatureSegments_det (e1 e2 : Env) (w h : ℚ) :
    List.Forall₂ (fun f g => ∀ a b : SimSt, a.seed = b.seed →
        (f a).1.map Creature.stripId = (g b).1.map Creature.stripId ∧
        (f a).2.seed = (g b).2.seed)
      (creatureSegments e1 w h) (creatureSegments e2 w h) := by
  unfold creatureSegments
  refine .cons (buildList_det _ _ _ (createCreature_det e1 e2 .bug w h) 10) ?_
  refine .cons (buildList_det _ _ _ (createCreature_det e1 e2 .snail w h) 7) ?_
  refine .cons
    (buildList_det _ _ _ (createCreature_det e1 e2 .butterfly w h) 12) ?_
  refine .cons
    (buildList_det _ _ _ (createCreature_det e1 e2 .dragonfly w h) 4) ?_
  refine .cons (buildList_det _ _ _ (createCreature_det e1 e2 .bee w h) 8) ?_
  refine .cons
    (buildList_det _ _ _ (createCreature_det e1 e2 .caterpillar w h) 10) ?_
  exact .cons (buildList_det _ _ _ (createCreature_det e1 e2 .ant w h) 80) .nil

theorem plantSegments_det (e1 e2 : Env) (w h : ℚ) :
    List.Forall₂ (fun f g => ∀ a b : SimSt, a.seed = b.seed →
        (f a).1.map Plant.stripId = (g b).1.map Plant.stripId ∧
        (f a).2.seed = (g b).2.seed)
      (plantSegments e1 w h) (plantSegments e2 w h) := by
  unfold plantSegments
  refine .cons
    (buildList_det _ _ _ (createPlant_det e1 e2 .flower w h none false) 40) ?_
  refine .cons
    (buildList_det _ _ _ (createPlant_det e1 e2 .daisy w h none false) 25) ?_
  refine .cons
    (buildList_det _ _ _ (createPlant_det e1 e2 .tulip w h none false) 20) ?_
  refine .cons (buildList_det _ _ _
    (createPlant_det e1 e2 .wildflower w h none false) 30) ?_
  refine .cons (buildList_det _ _ _ (smallWildItem_det e1 e2 w h) 20) ?_
  refine .cons
    (buildList_det _ _ _ (createPlant_det e1 e2 .poppy w h none false) 10) ?_
  refine .cons
    (buildList_det _ _ _ (createPlant_det e1 e2 .grass w h none false) 350) ?_
  refine .cons (buildList_det _ _ _
    (createPlant_det e1 e2 .mushroom w h none false) 6) ?_
  refine .cons (flatSeg_det _ _ _ (mushroomPatch_det e1 e2 w h) 6) ?_
  refine .cons
    (buildList_det _ _ _ (createPlant_det e1 e2 .blade w h none false) 220) ?_
  refine .cons
    (buildList_det _ _ _ (createPlant_det e1 e2 .moss w h none false) 25) ?_
  refine .cons (flatSeg_det _ _ _ (mossPatch_det e1 e2 w h) 10) ?_
  refine .cons (flatSeg_det _ _ _ (wideMossPatch_det e1 e2 w h) 7) ?_
  refine .cons (flatSeg_det _ _ _ (bigMossPatch_det e1 e2 w h) 2) ?_
  exact .cons (buildList_det _ _ _ (largeMossItem_det e1 e2 w h) 5) .nil

theorem createWorld_creatures_eq (e : Env) (w h : ℚ) (st : SimSt) :
    ((createWorld e w h st).1).creatures =
      (chainLists (creatureSegments e w h) (resetSeed st)).1 := rfl

theorem createWorld_plants_eq (e : Env) (w h : ℚ) (st : SimSt) :
    ((createWorld e w h st).1).plants =
      (chainLists (plantSegments e w h)
        (chainLists (creatureSegments e w h) (resetSeed st)).2).1 := rfl

theorem map_of_stripId_creature (l1 l2 : List Creature)
    (hmap : l1.map Creature.stripId = l2.map Creature.stripId) :
    (l1.map fun c => (c.pos, c.size, c.color)) =
      (l2.map fun c => (c.pos, c.size, c.color)) := by
  have h2 := congrArg (List.map fun c : Creature => (c.pos, c.size, c.color)) hmap
  rw [List.map_map, List.map_map] at h2
  simpa only [Function.comp_def, Creature.stripId] using h2

theorem map_of_stripId_plant (l1 l2 : List Plant)
    (hmap : l1.map Plant.stripId = l2.map Plant.stripId) :
    (l1.map fun p => (p.pos, p.size, p.color)) =
      (l2.map fun p => (p.pos, p.size, p.color)) := by
  have h2 := congrArg (List.map fun p : Plant => (p.pos, p.size, p.color)) hmap
  rw [List.map_map, List.map_map] at h2
  simpa only [Function.comp_def, Plant.stripId] using h2

/-- C1: `createWorld` is deterministic in positions, sizes and colors.  Two
calls with the same width and height, from arbitrary environments (arbitrary
`Math.random` streams for the ids) and arbitrary prior seeded-RNG states,
produce creature lists and plant lists whose entries agree pairwise on
position, size and color, because `resetSeed` restores the seed 12345 before
any draw. -/
theorem c1_createWorld_deterministic (e1 e2 : Env) (w h : ℚ) (a b : SimSt) :
    ((createWorld e1 w h a).1).creatures.map (fun c => (c.pos, c.size, c.color)) =
      ((createWorld e2 w h b).1).creatures.map (fun c => (c.pos, c.size, c.color)) ∧
    ((createWorld e1 w h a).1).plants.map (fun p => (p.pos, p.size, p.color)) =
      ((createWorld e2 w h b).1).plants.map (fun p => (p.pos, p.size, p.color)) := by
  have hcr := chainLists_det Creature.stripId (creatureSegments_det e1 e2 w h)
    (resetSeed a) (resetSeed b) rfl
  have hpl := chainLists_det Plant.stripId (plantSegments_det e1 e2 w h)
    (chainLists (creatureSegments e1 w h) (resetSeed a)).2
    (chainLists (creatureSegments e2 w h) (resetSeed b)).2 hcr.2
  rw [createWorld_creatures_eq, createWorld_creatures_eq, createWorld_plants_eq,
    createWorld_plants_eq]
  exact ⟨map_of_stripId_creature _ _ hcr.1, map_of_stripId_plant _ _ hpl.1⟩
